import Mathlib

/-!
A verification development for the pyAntDisplay decode/aggregate/gate
pipeline.  The Python sources `services/mqtt_monitor.py`, `live_monitor.py`
and `common.py` are embedded shallowly below:

* byte buffers are `List ℕ` (each entry one byte of the frame);
* Python numbers are modelled exactly: ints as `ℤ`/`ℕ`, floats as `ℚ`
  (every float the pipeline produces arises from integer data divided by
  1024/10/… so rationals model the source computations exactly);
* Python's `x & 0xFFFF` on a (possibly negative) int equals the canonical
  nonnegative representative of `x` modulo `2^16`, which is how it is
  written here (`pyAnd16`);
* a Python dict that can miss keys becomes a structure of `Option` fields;
  where the source builds a *sample* dict and folds it into a stored dict
  via `dict.update`, the sample is a structure of doubled options
  (`none` = key absent, `some v` = key present with value `v`, where `v`
  itself may be `none` = Python `None`);
* wall-clock reads (`time.time()`) become explicit `now : ℚ` parameters;
* I/O (the MQTT client, the JSON file) is replaced by explicit state and
  by result lists of attempted/successful sink calls.
-/

namespace PyAnt

/-- Python `x & 0xFFFF` for an arbitrary `int` operand: Python's `&` acts on
the infinite two's-complement representation, so masking with `0xFFFF` yields
the canonical nonnegative residue of `x` modulo `2 ^ 16`. -/
def pyAnd16 (x : ℤ) : ℕ := (x % 65536).toNat

/-- One stored entry of `self.device_values[device_id]` (both monitors build
the same shape).  Python distinguishes a missing key from a key holding
`None`; every read of a stored device record in the source goes through
`dict.get(...)`, which collapses the two, so a single `Option` per field is a
faithful model of the *stored* record.  `typ` models the `"type"` key,
`ts` the `"ts"` key.  The bookkeeping keys `"label"`, `"device_type"` and
`"device_id"`, which `on_broadcast` re-writes with constant values on every
call and which no claim mentions, are omitted. -/
structure DeviceRecord where
  typ : Option String
  hr : Option ℚ
  beat_time : Option ℚ
  beat_count : Option ℚ
  speed : Option ℚ
  cadence : Option ℚ
  power : Option ℚ
  evt_time : Option ℕ
  revs : Option ℕ
  ts : Option ℚ
deriving Repr, DecidableEq

/-- The empty dict `{}` that `self.device_values.get(device_id, {})` yields
for a device with no stored record. -/
def emptyRecord : DeviceRecord :=
  { typ := none, hr := none, beat_time := none, beat_count := none,
    speed := none, cadence := none, power := none,
    evt_time := none, revs := none, ts := none }

/-- The `parsed` dict one `on_broadcast` call produces, before
`dv.update(parsed)`.  Outer `none` = the key is absent from `parsed`
(so `update` keeps the stored value); `some v` = the key is present with
value `v` (`v = none` is Python `None`, which *overwrites* the stored
value). -/
structure ParsedSample where
  typ : Option (Option String)
  hr : Option (Option ℚ)
  beat_time : Option (Option ℚ)
  beat_count : Option (Option ℚ)
  speed : Option (Option ℚ)
  cadence : Option (Option ℚ)
  power : Option (Option ℚ)
  evt_time : Option (Option ℕ)
  revs : Option (Option ℕ)
  ts : Option (Option ℚ)
deriving Repr, DecidableEq

/-- A `ParsedSample` with every key absent. -/
def blankSample : ParsedSample :=
  { typ := none, hr := none, beat_time := none, beat_count := none,
    speed := none, cadence := none, power := none,
    evt_time := none, revs := none, ts := none }

/-- One field of Python's `dv.update(parsed)`: a key present in `parsed`
overwrites (even with `None`), an absent key keeps the stored value. -/
def updField {α : Type} (old : Option α) (new : Option (Option α)) : Option α :=
  match new with
  | none => old
  | some v => v

/-- `dv.update(parsed)` over all modelled keys. -/
def dvUpdate (dv : DeviceRecord) (p : ParsedSample) : DeviceRecord :=
  { typ := updField dv.typ p.typ,
    hr := updField dv.hr p.hr,
    beat_time := updField dv.beat_time p.beat_time,
    beat_count := updField dv.beat_count p.beat_count,
    speed := updField dv.speed p.speed,
    cadence := updField dv.cadence p.cadence,
    power := updField dv.power p.power,
    evt_time := updField dv.evt_time p.evt_time,
    revs := updField dv.revs p.revs,
    ts := updField dv.ts p.ts }

/-- The two rolling-counter deltas of the speed/cadence branch:
`dt_ticks = (evt_time - last_time) & 0xFFFF` and
`d_revs = (revs - last_revs) & 0xFFFF`. -/
def bikeDeltas (evt_time last_time revs last_revs : ℕ) : ℕ × ℕ :=
  (pyAnd16 ((evt_time : ℤ) - (last_time : ℤ)),
   pyAnd16 ((revs : ℤ) - (last_revs : ℤ)))

/-- The speed/cadence computation shared verbatim by both monitors
(`device_type in (121, 123, 122)` branch of `on_broadcast`), starting from
`speed = None; cadence = None` and the stored `prev.get("evt_time")`,
`prev.get("revs")`:

    if last_time is not None and last_revs is not None:
        dt_ticks = (evt_time - last_time) & 0xFFFF
        d_revs = (revs - last_revs) & 0xFFFF
        sec = dt_ticks / 1024.0 if dt_ticks > 0 else 0.0
        if sec > 0 and d_revs >= 0:
            if device_type == 123 or device_type == 121:
                mps = (d_revs * circ) / sec
                speed = mps * 3.6
            if device_type == 122 or device_type == 121:
                cadence = (d_revs / sec) * 60.0
-/
def bikeSpeedCadence (device_type : ℕ) (circ : ℚ) (evt_time revs : ℕ)
    (last_time last_revs : Option ℕ) : Option ℚ × Option ℚ :=
  match last_time, last_revs with
  | some lt, some lr =>
      let dt_ticks := (bikeDeltas evt_time lt revs lr).1
      let d_revs := (bikeDeltas evt_time lt revs lr).2
      let sec : ℚ := if 0 < dt_ticks then (dt_ticks : ℚ) / 1024 else 0
      if 0 < sec ∧ (0 : ℤ) ≤ (d_revs : ℤ) then
        ((if device_type = 123 ∨ device_type = 121 then
            some (((d_revs : ℚ) * circ) / sec * (3.6 : ℚ)) else none),
         (if device_type = 122 ∨ device_type = 121 then
            some ((d_revs : ℚ) / sec * 60) else none))
      else (none, none)
  | _, _ => (none, none)

/-- The heart-rate branch of `MqttMonitor._open_channel.on_broadcast`:
`hr = data[7]` inside `try`; a buffer shorter than 8 bytes raises
`IndexError`, and the bare `except` produces `{"type": "hr", "ts": ...}`
with *no* `hr` key. -/
def mqttParseHR (data : List ℕ) (now : ℚ) : ParsedSample :=
  match data.get? 7 with
  | some b7 =>
      { blankSample with typ := some (some "hr"), hr := some (some (b7 : ℚ)),
                         ts := some (some now) }
  | none =>
      { blankSample with typ := some (some "hr"), ts := some (some now) }

/-- The heart-rate branch of `LiveMonitor._open_channel.on_broadcast`: it
additionally decodes `beat_time = (data[4] | data[5] << 8)/1024.0` and
`beat_count = data[6]`, so a buffer shorter than 8 bytes raises before
`parsed` is assigned, and its `except` arm stores `{"type": "hr", "hr": 0,
"ts": ...}` — the `hr` key *is* present, with value `0`. -/
def liveParseHR (data : List ℕ) (now : ℚ) : ParsedSample :=
  match data.get? 4, data.get? 5, data.get? 6, data.get? 7 with
  | some b4, some b5, some b6, some b7 =>
      { blankSample with
          typ := some (some "hr"),
          hr := some (some (b7 : ℚ)),
          beat_time := some (some (((b4 ||| (b5 <<< 8) : ℕ) : ℚ) / 1024)),
          beat_count := some (some (b6 : ℚ)),
          ts := some (some now) }
  | _, _, _, _ =>
      { blankSample with typ := some (some "hr"), hr := some (some 0),
                         ts := some (some now) }

/-- The speed/cadence branch (`device_type in (121, 123, 122)`), identical in
both monitors up to where the wheel circumference comes from (passed in here
as `circ`).  A buffer shorter than 8 bytes raises at `data[4..7]` before
`parsed` is assigned, and the `except` arm stores `{"type": "bike",
"ts": ...}` with no other key; otherwise the `parsed` dict carries the
`speed` and `cadence` keys even when their values are `None`. -/
def parseBike (device_type : ℕ) (circ : ℚ) (data : List ℕ)
    (prev : DeviceRecord) (now : ℚ) : ParsedSample :=
  match data.get? 4, data.get? 5, data.get? 6, data.get? 7 with
  | some b4, some b5, some b6, some b7 =>
      let evt_time : ℕ := b4 ||| (b5 <<< 8)
      let revs : ℕ := b6 ||| (b7 <<< 8)
      let sc := bikeSpeedCadence device_type circ evt_time revs
                  prev.evt_time prev.revs
      { blankSample with
          typ := some (some "bike"),
          speed := some sc.1,
          cadence := some sc.2,
          evt_time := some (some evt_time),
          revs := some (some revs),
          ts := some (some now) }
  | _, _, _, _ =>
      { blankSample with typ := some (some "bike"), ts := some (some now) }

/-- The power branch (`device_type == 11`), identical in both monitors:
`power = (data[7] | (data[8] << 8)) if len(data) >= 9 else None`.  The index
accesses are guarded by the length test, so this branch never raises and its
`except` arm is dead; the `power` key is always present, holding `None`
whenever the buffer is shorter than 9 bytes. -/
def parsePower (data : List ℕ) (now : ℚ) : ParsedSample :=
  { blankSample with
      typ := some (some "power"),
      power := some (if 9 ≤ data.length
                     then some (((data.getD 7 0) ||| ((data.getD 8 0) <<< 8) : ℕ) : ℚ)
                     else none),
      ts := some (some now) }

/-- The final `else` arm: `parsed = {"type": "unknown", "ts": ...}`. -/
def parseUnknown (now : ℚ) : ParsedSample :=
  { blankSample with typ := some (some "unknown"), ts := some (some now) }

/-- Dispatch of `MqttMonitor._open_channel.on_broadcast` on `device_type`. -/
def mqttParse (device_type : ℕ) (circ : ℚ) (data : List ℕ)
    (prev : DeviceRecord) (now : ℚ) : ParsedSample :=
  if device_type = 120 then mqttParseHR data now
  else if device_type = 121 ∨ device_type = 123 ∨ device_type = 122 then
    parseBike device_type circ data prev now
  else if device_type = 11 then parsePower data now
  else parseUnknown now

/-- Dispatch of `LiveMonitor._open_channel.on_broadcast` on `device_type`. -/
def liveParse (device_type : ℕ) (circ : ℚ) (data : List ℕ)
    (prev : DeviceRecord) (now : ℚ) : ParsedSample :=
  if device_type = 120 then liveParseHR data now
  else if device_type = 121 ∨ device_type = 123 ∨ device_type = 122 then
    parseBike device_type circ data prev now
  else if device_type = 11 then parsePower data now
  else parseUnknown now

/-- The store update both `on_broadcast` callbacks perform for the MQTT
monitor: `prev = dv = self.device_values.get(device_id, {})`, parse, then
`dv.update(parsed)` (label/id bookkeeping keys omitted, see
`DeviceRecord`). -/
def mqttOnBroadcast (device_type : ℕ) (circ : ℚ) (data : List ℕ) (now : ℚ)
    (prev : Option DeviceRecord) : DeviceRecord :=
  dvUpdate (prev.getD emptyRecord)
    (mqttParse device_type circ data (prev.getD emptyRecord) now)

/-- Same store update for the live (curses) monitor. -/
def liveOnBroadcast (device_type : ℕ) (circ : ℚ) (data : List ℕ) (now : ℚ)
    (prev : Option DeviceRecord) : DeviceRecord :=
  dvUpdate (prev.getD emptyRecord)
    (liveParse device_type circ data (prev.getD emptyRecord) now)

/-- One entry of `self.user_values[name]`: the per-user aggregate dict
`{"hr": ..., "speed": ..., "cadence": ..., "power": ..., "updated": ...}`.
All five keys are always present (the dict is always created from the
`setdefault` literal below), so plain `Option` fields suffice. -/
structure UserVals where
  hr : Option ℚ
  speed : Option ℚ
  cadence : Option ℚ
  power : Option ℚ
  updated : ℚ
deriving Repr, DecidableEq

/-- The `setdefault` literal
`{"hr": None, "speed": None, "cadence": None, "power": None, "updated": 0}`. -/
def defaultUserVals : UserVals :=
  { hr := none, speed := none, cadence := none, power := none, updated := 0 }

/-- One user entry of the YAML `sensor_map.users` list (already parsed;
absent keys are `none`).  A device id stored as YAML `0` is falsy in Python
exactly like an absent key wherever the source tests `if some_id:`, which the
functions below reproduce. -/
structure UserConfig where
  name : String
  hr_device_ids : List ℕ
  hr_device_id : Option ℕ
  speed_device_id : Option ℕ
  cadence_device_id : Option ℕ
  power_device_id : Option ℕ
deriving Repr, DecidableEq

/-- The shared `sensor_map.wattbike` block; `none` at the call sites models
both an absent and an empty (falsy) block. -/
structure WattbikeConfig where
  speed_device_id : Option ℕ
  cadence_device_id : Option ℕ
  power_device_id : Option ℕ
deriving Repr, DecidableEq

/-- The `hr_device_ids`-with-legacy-fallback pattern repeated through
`mqtt_monitor.py`:

    hr_ids = user.get("hr_device_ids", [])
    if not hr_ids:
        old_hr_id = user.get("hr_device_id")
        if old_hr_id:
            hr_ids = [old_hr_id]
-/
def effHrIds (u : UserConfig) : List ℕ :=
  if u.hr_device_ids ≠ [] then u.hr_device_ids
  else
    match u.hr_device_id with
    | some i => if i ≠ 0 then [i] else []
    | none => []

/-- `MqttMonitor._user_for_hr`: the first configured user whose effective HR
id list contains the device id (returns that user's name). -/
def userForHr (users : List UserConfig) (device_id : ℕ) : Option String :=
  match users.find? (fun u => (effHrIds u).contains device_id) with
  | some u => some u.name
  | none => none

/-- The mutable monitor state the aggregation code reads and writes:
`self.device_values`, `self.user_values`, `self.last_hr_active_user`. -/
structure MonitorState where
  device_values : ℕ → Option DeviceRecord
  user_values : String → Option UserVals
  last_hr_active_user : Option String

/-- `self.user_values[k] = v`. -/
def setUser (m : String → Option UserVals) (k : String) (v : UserVals) :
    String → Option UserVals :=
  fun x => if x = k then some v else m x

/-- Keep the old value when the new one is absent (used for the
  `if dv.get(...) is not None: uv[...] = dv.get(...)` copy pattern and
  for `dict.update`-style record merges). -/
def keepIfNone {α : Type} (new old : Option α) : Option α :=
  match new with
  | some v => some v
  | none => old

/-- The HR-device scan of `MqttMonitor._assign_shared_sensors`:

    for hr_id in hr_ids:
        if hr_id in self.device_values:
            dv = self.device_values[hr_id]
            if dv.get("hr") is not None:
                hr_value = dv.get("hr")
                break
-/
def firstHrValue (dvs : ℕ → Option DeviceRecord) : List ℕ → Option ℚ
  | [] => none
  | i :: rest =>
    match dvs i with
    | some dv =>
        match dv.hr with
        | some v => some v
        | none => firstHrValue dvs rest
    | none => firstHrValue dvs rest

/-- The guarded read behind every
`if some_id and some_id in self.device_values: ... dv.get(metric)` pattern:
`some v` exactly when the configured id is truthy, a record for it exists and
the record's metric value is not `None`. -/
def presentOwned (dvs : ℕ → Option DeviceRecord) (d : Option ℕ)
    (read : DeviceRecord → Option ℚ) : Option ℚ :=
  match d with
  | some i => if i ≠ 0 then (match dvs i with
                             | some dv => read dv
                             | none => none)
              else none
  | none => none

/-- One iteration of the per-user loop of
`MqttMonitor._assign_shared_sensors` (HR scan, then the owned
speed/cadence/power copies, all inside `if hr_value is not None:`). -/
def assignUserStep (now : ℚ) (st : MonitorState) (u : UserConfig) :
    MonitorState :=
  if u.name = "" then st
  else
    match firstHrValue st.device_values (effHrIds u) with
    | none => st
    | some hrv =>
      let uv0 := (st.user_values u.name).getD defaultUserVals
      let uv1 := { uv0 with hr := some hrv, updated := now }
      let uv2 :=
        { uv1 with
            speed := keepIfNone
              (presentOwned st.device_values u.speed_device_id DeviceRecord.speed)
              uv1.speed,
            cadence := keepIfNone
              (presentOwned st.device_values u.cadence_device_id DeviceRecord.cadence)
              uv1.cadence,
            power := keepIfNone
              (presentOwned st.device_values u.power_device_id DeviceRecord.power)
              uv1.power }
      { st with user_values := setUser st.user_values u.name uv2 }

/-- The shared-wattbike tail of `MqttMonitor._assign_shared_sensors`
(`if not users or not wattbike: return`, `target = self.last_hr_active_user`,
`if not target: return`, then the guarded copies and the `updated` stamp). -/
def assignSharedPart (now : ℚ) (users : List UserConfig)
    (wattbike : Option WattbikeConfig) (st : MonitorState) : MonitorState :=
  if users = [] then st
  else
    match wattbike with
    | none => st
    | some wb =>
      match st.last_hr_active_user with
      | none => st
      | some target =>
        if target = "" then st
        else
          let uv0 := (st.user_values target).getD defaultUserVals
          let uv1 :=
            { uv0 with
                speed := keepIfNone
                  (presentOwned st.device_values wb.speed_device_id DeviceRecord.speed)
                  uv0.speed,
                cadence := keepIfNone
                  (presentOwned st.device_values wb.cadence_device_id DeviceRecord.cadence)
                  uv0.cadence,
                power := keepIfNone
                  (presentOwned st.device_values wb.power_device_id DeviceRecord.power)
                  uv0.power }
          let uv2 := { uv1 with updated := now }
          { st with user_values := setUser st.user_values target uv2 }

/-- `MqttMonitor._assign_shared_sensors`: the per-user loop, then the shared
wattbike tail.  The separate `time.time()` reads within one call are
collapsed into the single `now`. -/
def assignSharedSensors (now : ℚ) (users : List UserConfig)
    (wattbike : Option WattbikeConfig) (st : MonitorState) : MonitorState :=
  assignSharedPart now users wattbike
    (users.foldl (assignUserStep now) st)

/-- Truthiness of `dv.get("hr", 0)`: a present, nonzero bpm. -/
def hrGet0Truthy (dv : DeviceRecord) : Bool :=
  match dv.hr with
  | some v => decide (v ≠ 0)
  | none => false

/-- The state effect of one `MqttMonitor` `on_broadcast` callback: store the
updated record, then (for heart-rate devices with a truthy bpm) re-resolve
`self.last_hr_active_user = self._user_for_hr(device_id)`.  The
`deep_merge_save` persistence call and the `_availability(..., True)` call
the callback also makes act on state modelled separately below. -/
def mqttBroadcastStep (users : List UserConfig) (device_type device_id : ℕ)
    (circ : ℚ) (data : List ℕ) (now : ℚ) (st : MonitorState) : MonitorState :=
  let dv := mqttOnBroadcast device_type circ data now (st.device_values device_id)
  { device_values := fun i => if i = device_id then some dv else st.device_values i,
    user_values := st.user_values,
    last_hr_active_user :=
      if device_type = 120 ∧ hrGet0Truthy dv then userForHr users device_id
      else st.last_hr_active_user }

/-- One iteration of the HR-linked update loop inside
`LiveMonitor.run_curses` (the lines under
`# Update HR-linked values for users`): it reads only the legacy
`hr_device_id` key and stamps the user only when `hr_val` is truthy
(not `None` and nonzero). -/
def liveCursesHrStep (now : ℚ) (st : MonitorState) (u : UserConfig) :
    MonitorState :=
  match u.hr_device_id with
  | some hrId =>
    if hrId ≠ 0 then
      match st.device_values hrId with
      | some dv =>
        match dv.hr with
        | some v =>
          if v ≠ 0 then
            let uv0 := (st.user_values u.name).getD defaultUserVals
            let uv1 := { uv0 with hr := some v, updated := now }
            { st with last_hr_active_user := some u.name,
                      user_values := setUser st.user_values u.name uv1 }
          else st
        | none => st
      | none => st
    else st
  | none => st

/-- The whole `# Update HR-linked values for users` loop of
`LiveMonitor.run_curses`. -/
def liveCursesHrUpdate (now : ℚ) (users : List UserConfig)
    (st : MonitorState) : MonitorState :=
  users.foldl (liveCursesHrStep now) st

/-- The speed a user's aggregate currently carries (`None` when the user has
no aggregate yet). -/
def aggSpeed (st : MonitorState) (name : String) : Option ℚ :=
  (st.user_values name).bind UserVals.speed

/-- The cadence a user's aggregate currently carries. -/
def aggCadence (st : MonitorState) (name : String) : Option ℚ :=
  (st.user_values name).bind UserVals.cadence

/-- No stored device record carries a decoded speed or cadence (the situation
right after zero-delta samples). -/
def noStoredWheel (st : MonitorState) : Prop :=
  ∀ i dv, st.device_values i = some dv → dv.speed = none ∧ dv.cadence = none

/-- The bpm a user's aggregate currently carries. -/
def aggHr (st : MonitorState) (name : String) : Option ℚ :=
  (st.user_values name).bind UserVals.hr

/-- The power a user's aggregate currently carries. -/
def aggPower (st : MonitorState) (name : String) : Option ℚ :=
  (st.user_values name).bind UserVals.power

/-- The monitor state before any broadcast: empty device store, empty user
store, no last-active HR user. -/
def emptyMonitorState : MonitorState :=
  { device_values := fun _ => none, user_values := fun _ => none,
    last_hr_active_user := none }

/-- The spec's end-to-end scenario configuration: user "Alice" with
`hr_device_ids = [100, 101]` and no owned bike sensors. -/
def aliceConfig : UserConfig :=
  { name := "Alice", hr_device_ids := [100, 101], hr_device_id := none,
    speed_device_id := none, cadence_device_id := none,
    power_device_id := none }

/-- An 8-byte heart-rate frame whose bpm byte (`buf[7]`) is zero. -/
def zeroBpmBuf : List ℕ := [0, 0, 0, 0, 0, 0, 0, 0]

/-- Two-user scenario configuration: user "A" with HR device 1, no owned
bike sensors. -/
def cfgA : UserConfig :=
  { name := "A", hr_device_ids := [1], hr_device_id := none,
    speed_device_id := none, cadence_device_id := none,
    power_device_id := none }

/-- Two-user scenario configuration: user "B" with HR device 2, no owned
bike sensors. -/
def cfgB : UserConfig :=
  { name := "B", hr_device_ids := [2], hr_device_id := none,
    speed_device_id := none, cadence_device_id := none,
    power_device_id := none }

/-- A shared wattbike with speed/cadence/power devices 10/11/12. -/
def wattbikeCfg : WattbikeConfig :=
  { speed_device_id := some 10, cadence_device_id := some 11,
    power_device_id := some 12 }

/-- A stored record for the shared speed sensor: 20 km/h. -/
def sharedSpeedRec : DeviceRecord :=
  { emptyRecord with typ := some "bike", speed := some 20, ts := some 3 }

/-- A stored record for the shared cadence sensor: 90 rpm. -/
def sharedCadRec : DeviceRecord :=
  { emptyRecord with typ := some "bike", cadence := some 90, ts := some 3 }

/-- A stored record for the shared power sensor: 250 W. -/
def sharedPowRec : DeviceRecord :=
  { emptyRecord with typ := some "power", power := some 250, ts := some 3 }

/-- A monitor state where the three shared wattbike sensors have reported
and user "A" produced the most recent nonzero HR sample. -/
def c5State : MonitorState :=
  { device_values := fun i =>
      if i = 10 then some sharedSpeedRec
      else if i = 11 then some sharedCadRec
      else if i = 12 then some sharedPowRec
      else none,
    user_values := fun _ => none,
    last_hr_active_user := some "A" }

/-- The four metrics `_publish_user_metrics` handles, in source order. -/
inductive Metric
  | hr
  | speed
  | cadence
  | power
deriving Repr, DecidableEq

/-- `vals.get(metric)` on a user-values dict. -/
def UserVals.metric (v : UserVals) : Metric → Option ℚ
  | Metric.hr => v.hr
  | Metric.speed => v.speed
  | Metric.cadence => v.cadence
  | Metric.power => v.power

/-- One entry of `self.last_published_values[user]` (the dict literal at the
end of `_publish_user_metrics`, always carrying all four keys, possibly with
`None` values). -/
structure PublishedVals where
  hr : Option ℚ
  speed : Option ℚ
  cadence : Option ℚ
  power : Option ℚ
deriving Repr, DecidableEq

/-- `last_vals.get(metric)` on a tracked last-published dict. -/
def PublishedVals.metric (v : PublishedVals) : Metric → Option ℚ
  | Metric.hr => v.hr
  | Metric.speed => v.speed
  | Metric.cadence => v.cadence
  | Metric.power => v.power

/-- The `{}` default of `self.last_published_values.get(user, {})`. -/
def emptyPublished : PublishedVals :=
  { hr := none, speed := none, cadence := none, power := none }

/-- An empty last-published tracking map (process start). -/
def emptyLastPub : String → PublishedVals := fun _ => emptyPublished

/-- The metric sink calls one `_publish_user_metrics` call attempts, in
source order hr/speed/cadence/power: each exactly when
`vals.get(m) is not None and vals.get(m) != last_vals.get(m)`. -/
def publishAttempts (vals : UserVals) (last : PublishedVals) :
    List (Metric × ℚ) :=
  [Metric.hr, Metric.speed, Metric.cadence, Metric.power].filterMap fun m =>
    match UserVals.metric vals m with
    | some x =>
        if some x ≠ PublishedVals.metric last m then some (m, x) else none
    | none => none

/-- `MqttMonitor._publish_user_metrics`: the attempted metric publishes for
one user, and the *unconditional* rewrite of
`self.last_published_values[user]` with the current values. -/
def publishUserMetrics (user : String) (vals : UserVals)
    (lastPub : String → PublishedVals) :
    List (Metric × ℚ) × (String → PublishedVals) :=
  (publishAttempts vals (lastPub user),
   fun x => if x = user then
       { hr := vals.hr, speed := vals.speed, cadence := vals.cadence,
         power := vals.power }
     else lastPub x)

/-- `MqttMonitor._publish` wraps the sink call in
`try/except Exception: pass`: a failing call is swallowed and nothing in the
monitor records the failure.  The calls that actually reach the broker are
the attempted ones the sink accepts; the debounce state is updated by
`_publish_user_metrics` regardless. -/
def successfulPublishes (sinkOk : Metric → Bool)
    (attempts : List (Metric × ℚ)) : List (Metric × ℚ) :=
  attempts.filter fun a => sinkOk a.1

/-- `{"hr": 75}`-style user values: bpm 75, nothing else. -/
def vals75 : UserVals :=
  { hr := some 75, speed := none, cadence := none, power := none,
    updated := 1 }

/-- User values with bpm 75 and speed 20 km/h. -/
def valsHrSpeed : UserVals :=
  { hr := some 75, speed := some 20, cadence := none, power := none,
    updated := 1 }

/-- The same user values with only the speed changed (25 km/h). -/
def valsHrSpeed2 : UserVals :=
  { hr := some 75, speed := some 25, cadence := none, power := none,
    updated := 2 }

/-- A JSON scalar stored in a persisted device-record field.  Python ints
and floats are kept apart because `deep_merge_save` tests
`isinstance(mid, int)` on the manufacturer id. -/
inductive JVal
  | int (i : ℤ)
  | float (q : ℚ)
  | str (s : String)
  | null
deriving Repr, DecidableEq

/-- A JSON object (one persisted device record): a partial map from field
names to scalars. -/
def JRecord : Type := String → Option JVal

/-- Build a dict from a key/value list, later entries overriding earlier
ones (Python dict-literal / `dict.update` order). -/
def listToRecord (l : List (String × JVal)) : JRecord :=
  l.foldl (fun r kv => fun x => if x = kv.1 then some kv.2 else r x)
    (fun _ => none)

/-- `common.TYPE_NAMES`. -/
def TYPE_NAMES (t : ℕ) : Option String :=
  if t = 120 then some "Heart Rate Monitor"
  else if t = 121 then some "Speed and Cadence Sensor"
  else if t = 122 then some "Cadence Sensor"
  else if t = 123 then some "Speed Sensor"
  else if t = 11 then some "Power Meter"
  else if t = 16 then some "Fitness Equipment"
  else if t = 17 then some "Environment Sensor"
  else none

/-- `common.record_key`: the string key
`"{device_type}_{device_id}"`. -/
def record_key (device_type device_id : ℕ) : String :=
  toString device_type ++ "_" ++ toString device_id

/-- The `base` dict `deep_merge_save` builds before the rate-limit check:
id/type/transmission/description/`last_seen`, then `base.update(base_extra)`,
then the optional `manufacturer_name` enrichment (only when a manufacturers
map was passed, `base["manufacturer_id"]` is an int, and the looked-up name
is truthy). -/
def deepMergeBase (device_id device_type : ℕ)
    (transmission_type : Option ℕ) (now : ℚ)
    (base_extra : List (String × JVal))
    (manufacturers : Option (ℤ → Option String)) : JRecord :=
  let desc := (TYPE_NAMES device_type).getD
    ("Device type " ++ toString device_type)
  let b0 := listToRecord
    ([("device_id", JVal.int device_id),
      ("device_type", JVal.int device_type),
      ("transmission_type",
        match transmission_type with
        | some t => JVal.int t
        | none => JVal.null),
      ("description", JVal.str desc),
      ("last_seen", JVal.float now)] ++ base_extra)
  match manufacturers with
  | none => b0
  | some mmap =>
    match b0 "manufacturer_id" with
    | some (JVal.int mid) =>
      match mmap mid with
      | some mname =>
        if mname ≠ "" then
          fun x => if x = "manufacturer_name" then some (JVal.str mname)
                   else b0 x
        else b0
      | none => b0
    | _ => b0

/-- Python `merged.update(base)` on two records: fields of `base` override,
fields it lacks are kept from `merged`. -/
def recUpdate (old new : JRecord) : JRecord :=
  fun f => keepIfNone (new f) (old f)

/-- The result of one `deep_merge_save` call: whether the JSON document was
rewritten, plus the updated rate-limit bookkeeping and document store. -/
structure SaveOutcome where
  wrote : Bool
  last_save_times : String → ℚ
  store : String → Option JRecord

/-- `common.deep_merge_save`.  The JSON file is the explicit `store` (the
read-full/merge-one-key/write-full cycle becomes a pointwise update);
`last_save_times.get(rk, 0)` is a total map defaulting to 0 at the call
sites; the two `time.time()` reads within one call are collapsed into the
single `now`; and the swallowed file-I/O failure path (`PersistenceError`)
is outside this model, so `wrote` records that the rewrite was performed. -/
def deep_merge_save (device_id device_type : ℕ)
    (transmission_type : Option ℕ)
    (base_extra : List (String × JVal))
    (manufacturers : Option (ℤ → Option String))
    (rate_limit_secs : Option ℚ) (now : ℚ)
    (last_save_times : String → ℚ)
    (store : String → Option JRecord) : SaveOutcome :=
  let base := deepMergeBase device_id device_type transmission_type now
    base_extra manufacturers
  let rk := record_key device_type device_id
  let writeStore : String → Option JRecord :=
    fun k => if k = rk
             then some (recUpdate ((store rk).getD (fun _ => none)) base)
             else store k
  match rate_limit_secs with
  | some r =>
    if r ≠ 0 then
      let last := last_save_times rk
      if base_extra ≠ [] ∨ now - last > r then
        { wrote := true,
          last_save_times :=
            fun k => if k = rk then now else last_save_times k,
          store := writeStore }
      else
        { wrote := false, last_save_times := last_save_times,
          store := store }
    else
      { wrote := true, last_save_times := last_save_times,
        store := writeStore }
  | none =>
    { wrote := true, last_save_times := last_save_times, store := writeStore }

/-- The persistence-admission rule in the words of claim C7: a write is
allowed exactly when the caller supplies extra metadata fields or AT LEAST
`rateLimitSeconds` elapsed since the last allowed write for the key. -/
def claimWriteAllowed (base_extra : List (String × JVal))
    (r now last : ℚ) : Prop :=
  base_extra ≠ [] ∨ now - last ≥ r

/-- A previously persisted record for key `"120_5"` carrying a field
(`extra_field`) that no new write supplies. -/
def oldRecord : JRecord :=
  listToRecord [("description", JVal.str "old"), ("extra_field", JVal.int 7)]

/-- A document store holding records under `"120_5"` and `"119_9"`. -/
def c9Store : String → Option JRecord :=
  fun k => if k = "120_5" then some oldRecord
           else if k = "119_9" then some (listToRecord
             [("device_id", JVal.int 9)])
           else none

/-- One sink event of the MQTT run loop. -/
inductive PubEvent
  | metric (user : String) (m : Metric) (x : ℚ)
  | avail (user : String) (online : Bool)
deriving Repr, DecidableEq

/-- `MqttMonitor._availability`: publish only when the tracked state
differs; the `self.last_availability[user] = online` assignment sits inside
the same `try` as the sink call, so when the call fails neither the event
nor the tracked-state update happens. -/
def availabilityCall (sinkAvailOk : Bool) (user : String) (online : Bool)
    (last : String → Option Bool) :
    List PubEvent × (String → Option Bool) :=
  if last user ≠ some online then
    if sinkAvailOk then
      ([PubEvent.avail user online],
       fun x => if x = user then some online else last x)
    else ([], last)
  else ([], last)

/-- The debounce state the run loop threads: `self.last_published_values`
and `self.last_availability`. -/
structure TickState where
  last_published : String → PublishedVals
  last_availability : String → Option Bool

/-- One `for name, vals in self.user_values.items()` iteration of the
publish loop in `MqttMonitor.run`:

    if updated:
        self._publish_user_metrics(name, vals)
        self._availability(name, True)
    if (time.time() - updated) > self.stale_secs:
        self._availability(name, False)

(the loop's two `time.time()` reads are collapsed into `now`). -/
def runTickUser (sinkOk : Metric → Bool) (sinkAvailOk : Bool)
    (now stale_secs : ℚ) (ts : TickState) (entry : String × UserVals) :
    TickState × List PubEvent :=
  let step1 :=
    if entry.2.updated ≠ 0 then
      let pm := publishUserMetrics entry.1 entry.2 ts.last_published
      let ev1 := (successfulPublishes sinkOk pm.1).map
        (fun a => PubEvent.metric entry.1 a.1 a.2)
      let av := availabilityCall sinkAvailOk entry.1 true ts.last_availability
      ({ last_published := pm.2, last_availability := av.2 }, ev1 ++ av.1)
    else (ts, ([] : List PubEvent))
  if now - entry.2.updated > stale_secs then
    let av2 := availabilityCall sinkAvailOk entry.1 false
      step1.1.last_availability
    ({ step1.1 with last_availability := av2.2 }, step1.2 ++ av2.1)
  else step1

/-- One full iteration of the publish loop over `self.user_values`. -/
def runTick (sinkOk : Metric → Bool) (sinkAvailOk : Bool)
    (now stale_secs : ℚ) (users : List (String × UserVals))
    (ts : TickState) : TickState × List PubEvent :=
  users.foldl
    (fun acc entry =>
      ((runTickUser sinkOk sinkAvailOk now stale_secs acc.1 entry).1,
       acc.2 ++ (runTickUser sinkOk sinkAvailOk now stale_secs acc.1
         entry).2))
    (ts, ([] : List PubEvent))

/-- The debounce state after `k` iterations of the publish loop, tick `i`
running at time `tms i`; the user aggregates receive no new data across the
ticks (a stale stretch). -/
def runTicksState (sinkOk : Metric → Bool) (sinkAvailOk : Bool)
    (stale_secs : ℚ) (tms : ℕ → ℚ) (users : List (String × UserVals))
    (ts : TickState) : ℕ → TickState
  | 0 => ts
  | k + 1 =>
    (runTick sinkOk sinkAvailOk (tms k) stale_secs users
      (runTicksState sinkOk sinkAvailOk stale_secs tms users ts k)).1

/-- The events tick `k` emits. -/
def runTickEvents (sinkOk : Metric → Bool) (sinkAvailOk : Bool)
    (stale_secs : ℚ) (tms : ℕ → ℚ) (users : List (String × UserVals))
    (ts : TickState) (k : ℕ) : List PubEvent :=
  (runTick sinkOk sinkAvailOk (tms k) stale_secs users
    (runTicksState sinkOk sinkAvailOk stale_secs tms users ts k)).2

/-- The availability events among a tick's events. -/
def availEvents (l : List PubEvent) : List PubEvent :=
  l.filter fun e =>
    match e with
    | PubEvent.avail _ _ => true
    | _ => false

/-- A debounce state in which user "U" is currently marked offline. -/
def staleTickState : TickState :=
  { last_published := emptyLastPub,
    last_availability := fun x => if x = "U" then some false else none }

/-- A stored bike record with previously decoded speed/cadence and a stored
decode context (event time 1000 ticks, 50 revolutions). -/
def bikePrevRecord : DeviceRecord :=
  { typ := some "bike", hr := none, beat_time := none, beat_count := none,
    speed := some 18, cadence := some 90, power := none,
    evt_time := some 1000, revs := some 50, ts := some 5 }

/-- A broadcast frame repeating the stored context of `bikePrevRecord`:
bytes 4/5 give event time `232 + 256*3 = 1000`, bytes 6/7 give revolution
count `50` — a zero-delta sample. -/
def zeroDeltaBuf : List ℕ := [0, 0, 0, 0, 232, 3, 50, 0]

/-- A stored heart-rate record with a previously decoded bpm of 80. -/
def hrPrevRecord : DeviceRecord :=
  { typ := some "hr", hr := some 80, beat_time := some 1,
    beat_count := some 10, speed := none, cadence := none, power := none,
    evt_time := none, revs := none, ts := some 5 }

theorem presentOwned_eq_none {dvs : ℕ → Option DeviceRecord} {d : Option ℕ}
    {read : DeviceRecord → Option ℚ}
    (h : ∀ i dv, dvs i = some dv → read dv = none) :
    presentOwned dvs d read = none := by
  cases d with
  | none => rfl
  | some i =>
    simp only [presentOwned]
    by_cases hi : i ≠ 0
    · rw [if_pos hi]
      cases hdv : dvs i with
      | none => rfl
      | some dv => exact h i dv hdv
    · rw [if_neg hi]

theorem assignUserStep_preserves (now : ℚ) (st : MonitorState) (u : UserConfig)
    (h : noStoredWheel st) :
    (assignUserStep now st u).device_values = st.device_values
    ∧ (assignUserStep now st u).last_hr_active_user = st.last_hr_active_user
    ∧ ∀ name, aggSpeed (assignUserStep now st u) name = aggSpeed st name
        ∧ aggCadence (assignUserStep now st u) name = aggCadence st name := by
  unfold assignUserStep
  split
  · exact ⟨rfl, rfl, fun name => ⟨rfl, rfl⟩⟩
  · cases hfv : firstHrValue st.device_values (effHrIds u) with
    | none => exact ⟨rfl, rfl, fun name => ⟨rfl, rfl⟩⟩
    | some hrv =>
      refine ⟨rfl, rfl, fun name => ?_⟩
      have hsp : presentOwned st.device_values u.speed_device_id
          DeviceRecord.speed = none :=
        presentOwned_eq_none (fun i dv hdv => (h i dv hdv).1)
      have hcad : presentOwned st.device_values u.cadence_device_id
          DeviceRecord.cadence = none :=
        presentOwned_eq_none (fun i dv hdv => (h i dv hdv).2)
      by_cases hn : name = u.name
      · cases huv : st.user_values u.name with
        | none =>
          simp [aggSpeed, aggCadence, setUser, hsp, hcad, keepIfNone, hn, huv,
                defaultUserVals]
        | some uv =>
          simp [aggSpeed, aggCadence, setUser, hsp, hcad, keepIfNone, hn, huv]
      · simp [aggSpeed, aggCadence, setUser, hn]

theorem assignSharedPart_preserves (now : ℚ) (users : List UserConfig)
    (wb : Option WattbikeConfig) (st : MonitorState) (h : noStoredWheel st) :
    ∀ name, aggSpeed (assignSharedPart now users wb st) name = aggSpeed st name
      ∧ aggCadence (assignSharedPart now users wb st) name = aggCadence st name := by
  intro name
  unfold assignSharedPart
  split
  · exact ⟨rfl, rfl⟩
  · cases wb with
    | none => exact ⟨rfl, rfl⟩
    | some w =>
      cases st.last_hr_active_user with
      | none => exact ⟨rfl, rfl⟩
      | some target =>
        simp only
        split
        · exact ⟨rfl, rfl⟩
        · have hsp : presentOwned st.device_values w.speed_device_id
              DeviceRecord.speed = none :=
            presentOwned_eq_none (fun i dv hdv => (h i dv hdv).1)
          have hcad : presentOwned st.device_values w.cadence_device_id
              DeviceRecord.cadence = none :=
            presentOwned_eq_none (fun i dv hdv => (h i dv hdv).2)
          by_cases hn : name = target
          · cases huv : st.user_values target with
            | none =>
              simp [aggSpeed, aggCadence, setUser, hsp, hcad, keepIfNone, hn,
                    huv, defaultUserVals]
            | some uv =>
              simp [aggSpeed, aggCadence, setUser, hsp, hcad, keepIfNone, hn,
                    huv]
          · simp [aggSpeed, aggCadence, setUser, hn]

theorem foldl_assignUserStep_preserves (now : ℚ) (users : List UserConfig)
    (st : MonitorState) (h : noStoredWheel st) :
    (users.foldl (assignUserStep now) st).device_values = st.device_values
    ∧ (users.foldl (assignUserStep now) st).last_hr_active_user
        = st.last_hr_active_user
    ∧ ∀ name,
        aggSpeed (users.foldl (assignUserStep now) st) name = aggSpeed st name
        ∧ aggCadence (users.foldl (assignUserStep now) st) name
            = aggCadence st name := by
  induction users generalizing st with
  | nil => exact ⟨rfl, rfl, fun name => ⟨rfl, rfl⟩⟩
  | cons u rest ih =>
    have h1 := assignUserStep_preserves now st u h
    have h1dv : (assignUserStep now st u).device_values = st.device_values :=
      h1.1
    have hnext : noStoredWheel (assignUserStep now st u) := by
      intro i dv hdv
      exact h i dv (by rw [h1dv] at hdv; exact hdv)
    have h2 := ih (assignUserStep now st u) hnext
    refine ⟨by rw [List.foldl_cons, h2.1, h1dv], ?_, fun name => ?_⟩
    · rw [List.foldl_cons, h2.2.1, h1.2.1]
    · constructor
      · rw [List.foldl_cons, (h2.2.2 name).1, (h1.2.2 name).1]
      · rw [List.foldl_cons, (h2.2.2 name).2, (h1.2.2 name).2]

theorem assignUserStep_frame (now : ℚ) (st : MonitorState) (u : UserConfig) :
    (assignUserStep now st u).device_values = st.device_values
    ∧ (assignUserStep now st u).last_hr_active_user
        = st.last_hr_active_user := by
  unfold assignUserStep
  split
  · exact ⟨rfl, rfl⟩
  · cases hfv : firstHrValue st.device_values (effHrIds u) with
    | none => exact ⟨rfl, rfl⟩
    | some hrv => exact ⟨rfl, rfl⟩

theorem assignUserStep_metrics_no_owned (now : ℚ) (st : MonitorState)
    (u : UserConfig) (hsp : u.speed_device_id = none)
    (hcad : u.cadence_device_id = none) (hpow : u.power_device_id = none) :
    ∀ name, aggSpeed (assignUserStep now st u) name = aggSpeed st name
      ∧ aggCadence (assignUserStep now st u) name = aggCadence st name
      ∧ aggPower (assignUserStep now st u) name = aggPower st name := by
  intro name
  unfold assignUserStep
  split
  · exact ⟨rfl, rfl, rfl⟩
  · cases hfv : firstHrValue st.device_values (effHrIds u) with
    | none => exact ⟨rfl, rfl, rfl⟩
    | some hrv =>
      by_cases hn : name = u.name
      · cases huv : st.user_values u.name with
        | none =>
          simp [aggSpeed, aggCadence, aggPower, setUser, hsp, hcad, hpow,
                presentOwned, keepIfNone, hn, huv, defaultUserVals]
        | some uv =>
          simp [aggSpeed, aggCadence, aggPower, setUser, hsp, hcad, hpow,
                presentOwned, keepIfNone, hn, huv]
      · simp [aggSpeed, aggCadence, aggPower, setUser, hn]

theorem foldl_assign_no_owned (now : ℚ) (users : List UserConfig)
    (st : MonitorState)
    (howned : ∀ u ∈ users, u.speed_device_id = none
      ∧ u.cadence_device_id = none ∧ u.power_device_id = none) :
    (users.foldl (assignUserStep now) st).device_values = st.device_values
    ∧ (users.foldl (assignUserStep now) st).last_hr_active_user
        = st.last_hr_active_user
    ∧ ∀ name,
        aggSpeed (users.foldl (assignUserStep now) st) name = aggSpeed st name
        ∧ aggCadence (users.foldl (assignUserStep now) st) name
            = aggCadence st name
        ∧ aggPower (users.foldl (assignUserStep now) st) name
            = aggPower st name := by
  induction users generalizing st with
  | nil => exact ⟨rfl, rfl, fun name => ⟨rfl, rfl, rfl⟩⟩
  | cons u rest ih =>
    have hu := howned u (List.mem_cons_self u rest)
    have h1 := assignUserStep_frame now st u
    have h2 := assignUserStep_metrics_no_owned now st u hu.1 hu.2.1 hu.2.2
    have h3 := ih (assignUserStep now st u)
      (fun w hw => howned w (List.mem_cons_of_mem u hw))
    refine ⟨by rw [List.foldl_cons, h3.1, h1.1],
            by rw [List.foldl_cons, h3.2.1, h1.2],
            fun name => ⟨?_, ?_, ?_⟩⟩
    · rw [List.foldl_cons, (h3.2.2 name).1, (h2 name).1]
    · rw [List.foldl_cons, (h3.2.2 name).2.1, (h2 name).2.1]
    · rw [List.foldl_cons, (h3.2.2 name).2.2, (h2 name).2.2]

theorem assignSharedPart_no_target (now : ℚ) (users : List UserConfig)
    (wb : Option WattbikeConfig) (st : MonitorState)
    (h : st.last_hr_active_user = none) :
    assignSharedPart now users wb st = st := by
  unfold assignSharedPart
  split
  · rfl
  · cases wb with
    | none => rfl
    | some w => rw [h]

theorem assignSharedPart_hr (now : ℚ) (users : List UserConfig)
    (wb : Option WattbikeConfig) (st : MonitorState) (name : String) :
    aggHr (assignSharedPart now users wb st) name = aggHr st name := by
  unfold assignSharedPart
  split
  · rfl
  · cases wb with
    | none => rfl
    | some w =>
      cases hl : st.last_hr_active_user with
      | none => rfl
      | some target =>
        simp only
        split
        · rfl
        · by_cases hn : name = target
          · cases huv : st.user_values target with
            | none =>
              simp [aggHr, setUser, keepIfNone, hn, huv, defaultUserVals]
            | some uv => simp [aggHr, setUser, keepIfNone, hn, huv]
          · simp [aggHr, setUser, hn]

theorem assignSharedPart_target (now : ℚ) (users : List UserConfig)
    (wb : WattbikeConfig) (st : MonitorState) (target : String)
    (husers : users ≠ []) (hlast : st.last_hr_active_user = some target)
    (ht : target ≠ "") (d dc dp : ℕ) (dv dvc dvp : DeviceRecord) (v vc vp : ℚ)
    (hwsp : wb.speed_device_id = some d) (hd : d ≠ 0)
    (hdv : st.device_values d = some dv) (hv : dv.speed = some v)
    (hwc : wb.cadence_device_id = some dc) (hdc : dc ≠ 0)
    (hdvc : st.device_values dc = some dvc) (hvc : dvc.cadence = some vc)
    (hwp : wb.power_device_id = some dp) (hdp : dp ≠ 0)
    (hdvp : st.device_values dp = some dvp) (hvp : dvp.power = some vp) :
    aggSpeed (assignSharedPart now users (some wb) st) target = some v
    ∧ aggCadence (assignSharedPart now users (some wb) st) target = some vc
    ∧ aggPower (assignSharedPart now users (some wb) st) target = some vp
    ∧ ∀ name, name ≠ target →
        (assignSharedPart now users (some wb) st).user_values name
          = st.user_values name := by
  have hps : presentOwned st.device_values wb.speed_device_id
      DeviceRecord.speed = some v := by
    simp [presentOwned, hwsp, hd, hdv, hv]
  have hpc : presentOwned st.device_values wb.cadence_device_id
      DeviceRecord.cadence = some vc := by
    simp [presentOwned, hwc, hdc, hdvc, hvc]
  have hpp : presentOwned st.device_values wb.power_device_id
      DeviceRecord.power = some vp := by
    simp [presentOwned, hwp, hdp, hdvp, hvp]
  unfold assignSharedPart
  rw [if_neg (by simpa using husers), hlast]
  simp only
  rw [if_neg ht]
  refine ⟨?_, ?_, ?_, fun name hn => ?_⟩
  · simp [aggSpeed, setUser, hps, keepIfNone]
  · simp [aggCadence, setUser, hpc, keepIfNone]
  · simp [aggPower, setUser, hpp, keepIfNone]
  · simp [setUser, hn]

theorem bikeSpeedCadence_zero_delta (device_type : ℕ) (circ : ℚ)
    (e r t v : ℕ) (hzero : (bikeDeltas e t r v).1 = 0) :
    bikeSpeedCadence device_type circ e r (some t) (some v) = (none, none) := by
  unfold bikeSpeedCadence
  simp only [hzero]
  norm_num

theorem bikeSpeedCadence_pos_delta (device_type : ℕ) (circ : ℚ)
    (e r t v : ℕ)
    (h : (bikeSpeedCadence device_type circ e r (some t) (some v)).1 ≠ none
       ∨ (bikeSpeedCadence device_type circ e r (some t) (some v)).2 ≠ none) :
    0 < (bikeDeltas e t r v).1 := by
  by_contra hneg
  have hz : (bikeDeltas e t r v).1 = 0 := by omega
  rw [bikeSpeedCadence_zero_delta device_type circ e r t v hz] at h
  simp at h

theorem assignSharedSensors_preserves_wheel (now : ℚ)
    (users : List UserConfig) (wb : Option WattbikeConfig) (st : MonitorState)
    (h : noStoredWheel st) (name : String) :
    aggSpeed (assignSharedSensors now users wb st) name = aggSpeed st name
    ∧ aggCadence (assignSharedSensors now users wb st) name
        = aggCadence st name := by
  unfold assignSharedSensors
  have hf := foldl_assignUserStep_preserves now users st h
  have hmid : noStoredWheel (users.foldl (assignUserStep now) st) := by
    intro i dv hdv
    exact h i dv (by rw [hf.1] at hdv; exact hdv)
  have hs := assignSharedPart_preserves now users wb _ hmid name
  exact ⟨hs.1.trans (hf.2.2 name).1, hs.2.trans (hf.2.2 name).2⟩

/-- Claim C2, counterexample: a non-first sample with `deltaTicks = 0` does
NOT leave the device's stored speed and cadence equal to their previous
values — the `parsed` dict always carries the `speed`/`cadence` keys, here
with value `None`, and `dv.update(parsed)` overwrites the stored values with
absent ones.  With prior speed 18 km/h and cadence 90 rpm and a repeated
(event time, rev count) of (1000, 50), the updated record stores no speed
and no cadence at all. -/
theorem C2_zero_delta_counterexample :
    (bikeDeltas 1000 1000 50 50).1 = 0
    ∧ bikePrevRecord.speed = some 18
    ∧ bikePrevRecord.cadence = some 90
    ∧ (mqttOnBroadcast 121 (21 / 10) zeroDeltaBuf 6 (some bikePrevRecord)).speed
        = none
    ∧ (mqttOnBroadcast 121 (21 / 10) zeroDeltaBuf 6 (some bikePrevRecord)).cadence
        = none := by
  refine ⟨by decide, rfl, rfl, ?_, ?_⟩ <;> decide

/-- Claim C2 (amended): a non-first speed/cadence sample with
`deltaTicks = 0` stores ABSENT (`None`) speed and cadence into the device's
record — it does not preserve the previously decoded values at the device
level — while still updating the decode context; no division by zero occurs
(whenever the decoder computes a speed or cadence, `deltaTicks` is positive,
so the divisor `sec = deltaTicks/1024` is positive); and because absent
metric values are never copied into user aggregates, every user's aggregated
(and hence emitted) speed and cadence remain exactly their previous values
when no stored record carries a decoded speed/cadence. -/
theorem C2_zero_delta_amended (device_type : ℕ)
    (hdt : device_type = 121 ∨ device_type = 122 ∨ device_type = 123)
    (circ now : ℚ) (a0 a1 a2 a3 b4 b5 b6 b7 : ℕ) (rest : List ℕ)
    (prev : DeviceRecord) (lt lr : ℕ)
    (hlt : prev.evt_time = some lt) (hlr : prev.revs = some lr)
    (hzero : (bikeDeltas (b4 ||| (b5 <<< 8)) lt (b6 ||| (b7 <<< 8)) lr).1 = 0) :
    (mqttOnBroadcast device_type circ
        (a0 :: a1 :: a2 :: a3 :: b4 :: b5 :: b6 :: b7 :: rest) now
        (some prev)).speed = none
    ∧ (mqttOnBroadcast device_type circ
        (a0 :: a1 :: a2 :: a3 :: b4 :: b5 :: b6 :: b7 :: rest) now
        (some prev)).cadence = none
    ∧ (mqttOnBroadcast device_type circ
        (a0 :: a1 :: a2 :: a3 :: b4 :: b5 :: b6 :: b7 :: rest) now
        (some prev)).evt_time = some (b4 ||| (b5 <<< 8))
    ∧ (∀ (d2 : ℕ) (c2 : ℚ) (e r t v : ℕ),
        ((bikeSpeedCadence d2 c2 e r (some t) (some v)).1 ≠ none
         ∨ (bikeSpeedCadence d2 c2 e r (some t) (some v)).2 ≠ none) →
        0 < (bikeDeltas e t r v).1)
    ∧ (∀ (users : List UserConfig) (wb : Option WattbikeConfig)
         (st : MonitorState), noStoredWheel st → ∀ name,
        aggSpeed (assignSharedSensors now users wb st) name = aggSpeed st name
        ∧ aggCadence (assignSharedSensors now users wb st) name
            = aggCadence st name) := by
  have hsc := bikeSpeedCadence_zero_delta device_type circ
    (b4 ||| (b5 <<< 8)) (b6 ||| (b7 <<< 8)) lt lr hzero
  have h4 : (a0 :: a1 :: a2 :: a3 :: b4 :: b5 :: b6 :: b7 :: rest)[4]? = some b4 := by simp
  have h5 : (a0 :: a1 :: a2 :: a3 :: b4 :: b5 :: b6 :: b7 :: rest)[5]? = some b5 := by simp
  have h6 : (a0 :: a1 :: a2 :: a3 :: b4 :: b5 :: b6 :: b7 :: rest)[6]? = some b6 := by simp
  have h7 : (a0 :: a1 :: a2 :: a3 :: b4 :: b5 :: b6 :: b7 :: rest)[7]? = some b7 := by simp
  refine ⟨?_, ?_, ?_,
    fun d2 c2 e r t v h => bikeSpeedCadence_pos_delta d2 c2 e r t v h,
    fun users wb st h name =>
      assignSharedSensors_preserves_wheel now users wb st h name⟩ <;>
  · rcases hdt with h | h | h <;> subst h <;>
      simp [mqttOnBroadcast, mqttParse, parseBike, dvUpdate, updField,
            h4, h5, h6, h7, hlt, hlr, hsc]

/-- Witness for `C2_zero_delta_amended` at the concrete zero-delta sample of
`C2_zero_delta_counterexample`. -/
theorem C2_zero_delta_amended_witness :
    bikePrevRecord.evt_time = some 1000
    ∧ (bikeDeltas (232 ||| (3 <<< 8)) 1000 (50 ||| (0 <<< 8)) 50).1 = 0
    ∧ (mqttOnBroadcast 121 (21 / 10)
        (0 :: 0 :: 0 :: 0 :: 232 :: 3 :: 50 :: 0 :: ([] : List ℕ)) 6
        (some bikePrevRecord)).speed = none :=
  ⟨rfl, by decide,
   (C2_zero_delta_amended 121 (Or.inl rfl) (21 / 10) 6 0 0 0 0 232 3 50 0 []
     bikePrevRecord 1000 50 rfl rfl (by decide)).1⟩

theorem mqttParseHR_short (data : List ℕ) (now : ℚ)
    (h7 : data[7]? = none) :
    mqttParseHR data now
      = { blankSample with typ := some (some "hr"), ts := some (some now) } := by
  unfold mqttParseHR
  simp [h7]

theorem liveParseHR_short (data : List ℕ) (now : ℚ)
    (h7 : data[7]? = none) :
    liveParseHR data now
      = { blankSample with typ := some (some "hr"), hr := some (some 0),
                           ts := some (some now) } := by
  unfold liveParseHR
  rcases hg4 : data[4]? with _ | b4 <;>
    rcases hg5 : data[5]? with _ | b5 <;>
      rcases hg6 : data[6]? with _ | b6 <;>
        simp [hg4, hg5, hg6, h7]

theorem parseBike_short (device_type : ℕ) (circ : ℚ) (data : List ℕ)
    (prev : DeviceRecord) (now : ℚ) (h7 : data[7]? = none) :
    parseBike device_type circ data prev now
      = { blankSample with typ := some (some "bike"),
                           ts := some (some now) } := by
  unfold parseBike
  rcases hg4 : data[4]? with _ | b4 <;>
    rcases hg5 : data[5]? with _ | b5 <;>
      rcases hg6 : data[6]? with _ | b6 <;>
        simp [hg4, hg5, hg6, h7]

/-- Claim C3, counterexample: a 3-byte heart-rate buffer (shorter than the
8-byte minimum) does NOT leave the previously stored reading unchanged in
the live monitor: its `except` arm stores `{"type": "hr", "hr": 0, ...}`,
so `dv.update(parsed)` overwrites the stored bpm of 80 with 0 — a metric
field is set from the short buffer. -/
theorem C3_short_buffer_counterexample :
    ([1, 2, 3] : List ℕ).length < 8
    ∧ hrPrevRecord.hr = some 80
    ∧ (liveOnBroadcast 120 (21 / 10) [1, 2, 3] 6 (some hrPrevRecord)).hr
        = some 0 := by
  exact ⟨by decide, rfl, by decide⟩

/-- Claim C3 (amended): a buffer shorter than 8 bytes is a per-sample decode
error for the broadcast-style profiles (120/121/122/123) of the MQTT
monitor: all previously stored metric fields and the decode context are
unchanged, no metric field is set from the short buffer, but the stored
timestamp is refreshed (it is not left "completely unchanged").  Two
exceptions diverge further: the power profile (type 11) stores an absent
power — clearing any prior power value — for every buffer shorter than 9
bytes, and the live monitor's heart-rate path stores bpm 0 (not the prior
reading) for a short buffer. -/
theorem C3_short_buffer_amended (device_type : ℕ)
    (hdt : device_type = 120 ∨ device_type = 121 ∨ device_type = 122
           ∨ device_type = 123)
    (circ now : ℚ) (data : List ℕ) (hshort : data.length < 8)
    (prev : DeviceRecord) :
    (mqttOnBroadcast device_type circ data now (some prev)).hr = prev.hr
    ∧ (mqttOnBroadcast device_type circ data now (some prev)).speed
        = prev.speed
    ∧ (mqttOnBroadcast device_type circ data now (some prev)).cadence
        = prev.cadence
    ∧ (mqttOnBroadcast device_type circ data now (some prev)).power
        = prev.power
    ∧ (mqttOnBroadcast device_type circ data now (some prev)).evt_time
        = prev.evt_time
    ∧ (mqttOnBroadcast device_type circ data now (some prev)).revs
        = prev.revs
    ∧ (mqttOnBroadcast device_type circ data now (some prev)).ts = some now
    ∧ (∀ (d9 : List ℕ) (p9 : DeviceRecord), d9.length < 9 →
        (mqttOnBroadcast 11 circ d9 now (some p9)).power = none
        ∧ (mqttOnBroadcast 11 circ d9 now (some p9)).hr = p9.hr
        ∧ (mqttOnBroadcast 11 circ d9 now (some p9)).speed = p9.speed)
    ∧ (liveOnBroadcast 120 circ data now (some prev)).hr = some 0 := by
  have h7 : data[7]? = none := List.getElem?_eq_none (by omega)
  have hpow : ∀ (d9 : List ℕ) (p9 : DeviceRecord), d9.length < 9 →
      (mqttOnBroadcast 11 circ d9 now (some p9)).power = none
      ∧ (mqttOnBroadcast 11 circ d9 now (some p9)).hr = p9.hr
      ∧ (mqttOnBroadcast 11 circ d9 now (some p9)).speed = p9.speed := by
    intro d9 p9 h9
    have hlen : ¬ (9 ≤ d9.length) := by omega
    simp [mqttOnBroadcast, mqttParse, parsePower, dvUpdate, updField,
          blankSample, hlen]
  have hlive : (liveOnBroadcast 120 circ data now (some prev)).hr = some 0 := by
    simp [liveOnBroadcast, liveParse, liveParseHR_short data now h7, dvUpdate,
          updField, blankSample]
  refine ⟨?_, ?_, ?_, ?_, ?_, ?_, ?_, hpow, hlive⟩ <;>
  · rcases hdt with h | h | h | h <;> subst h <;>
      simp [mqttOnBroadcast, mqttParse, mqttParseHR_short, parseBike_short,
            h7, dvUpdate, updField, blankSample]

/-- Witness for `C3_short_buffer_amended`: the 3-byte buffer of the
counterexample, fed to the MQTT heart-rate decoder over `hrPrevRecord`. -/
theorem C3_short_buffer_amended_witness :
    ([1, 2, 3] : List ℕ).length < 8
    ∧ (mqttOnBroadcast 120 (21 / 10) [1, 2, 3] 6 (some hrPrevRecord)).hr
        = hrPrevRecord.hr :=
  ⟨by decide,
   (C3_short_buffer_amended 120 (Or.inl rfl) (21 / 10) 6 [1, 2, 3] (by decide)
     hrPrevRecord).1⟩

theorem assignSharedSensors_target (now : ℚ) (users : List UserConfig)
    (wb : WattbikeConfig) (st : MonitorState) (target : String)
    (howned : ∀ u ∈ users, u.speed_device_id = none
      ∧ u.cadence_device_id = none ∧ u.power_device_id = none)
    (husers : users ≠ []) (hlast : st.last_hr_active_user = some target)
    (ht : target ≠ "") (d dc dp : ℕ) (dv dvc dvp : DeviceRecord) (v vc vp : ℚ)
    (hwsp : wb.speed_device_id = some d) (hd : d ≠ 0)
    (hdv : st.device_values d = some dv) (hv : dv.speed = some v)
    (hwc : wb.cadence_device_id = some dc) (hdc : dc ≠ 0)
    (hdvc : st.device_values dc = some dvc) (hvc : dvc.cadence = some vc)
    (hwp : wb.power_device_id = some dp) (hdp : dp ≠ 0)
    (hdvp : st.device_values dp = some dvp) (hvp : dvp.power = some vp) :
    aggSpeed (assignSharedSensors now users (some wb) st) target = some v
    ∧ aggCadence (assignSharedSensors now users (some wb) st) target = some vc
    ∧ aggPower (assignSharedSensors now users (some wb) st) target = some vp
    ∧ ∀ name, name ≠ target →
        aggSpeed (assignSharedSensors now users (some wb) st) name
            = aggSpeed st name
        ∧ aggCadence (assignSharedSensors now users (some wb) st) name
            = aggCadence st name
        ∧ aggPower (assignSharedSensors now users (some wb) st) name
            = aggPower st name := by
  unfold assignSharedSensors
  have hf := foldl_assign_no_owned now users st howned
  have h2last : (users.foldl (assignUserStep now) st).last_hr_active_user
      = some target := by rw [hf.2.1, hlast]
  have hT := assignSharedPart_target now users wb
    (users.foldl (assignUserStep now) st) target husers h2last ht
    d dc dp dv dvc dvp v vc vp
    hwsp hd (by rw [hf.1]; exact hdv) hv
    hwc hdc (by rw [hf.1]; exact hdvc) hvc
    hwp hdp (by rw [hf.1]; exact hdvp) hvp
  refine ⟨hT.1, hT.2.1, hT.2.2.1, fun name hn => ?_⟩
  have huveq := hT.2.2.2 name hn
  refine ⟨?_, ?_, ?_⟩
  · rw [show aggSpeed (assignSharedPart now users (some wb)
        (users.foldl (assignUserStep now) st)) name
        = aggSpeed (users.foldl (assignUserStep now) st) name from by
          unfold aggSpeed; rw [huveq]]
    exact (hf.2.2 name).1
  · rw [show aggCadence (assignSharedPart now users (some wb)
        (users.foldl (assignUserStep now) st)) name
        = aggCadence (users.foldl (assignUserStep now) st) name from by
          unfold aggCadence; rw [huveq]]
    exact (hf.2.2 name).2.1
  · rw [show aggPower (assignSharedPart now users (some wb)
        (users.foldl (assignUserStep now) st)) name
        = aggPower (users.foldl (assignUserStep now) st) name from by
          unfold aggPower; rw [huveq]]
    exact (hf.2.2 name).2.2

theorem publishAttempts_mem (vals : UserVals) (last : PublishedVals)
    (m : Metric) (x : ℚ) (hmem : (m, x) ∈ publishAttempts vals last) :
    UserVals.metric vals m = some x
    ∧ PublishedVals.metric last m ≠ some x := by
  unfold publishAttempts at hmem
  rcases List.mem_filterMap.mp hmem with ⟨mw, _, hf⟩
  cases hv : UserVals.metric vals mw with
  | none => rw [hv] at hf; cases hf
  | some xw =>
    rw [hv] at hf
    by_cases hne : some xw ≠ PublishedVals.metric last mw
    · simp [hne] at hf
      obtain ⟨rfl, rfl⟩ := hf
      exact ⟨hv, fun h => hne h.symm⟩
    · simp [hne] at hf

theorem publishUserMetrics_last_self (user : String) (vals : UserVals)
    (lastPub : String → PublishedVals) :
    (publishUserMetrics user vals lastPub).2 user
      = { hr := vals.hr, speed := vals.speed, cadence := vals.cadence,
          power := vals.power } := by
  simp [publishUserMetrics]

theorem publishAttempts_self (vals : UserVals) :
    publishAttempts vals
      { hr := vals.hr, speed := vals.speed, cadence := vals.cadence,
        power := vals.power } = [] := by
  rcases vals with ⟨h, s, c, p, u⟩
  cases h <;> cases s <;> cases c <;> cases p <;>
    simp [publishAttempts, UserVals.metric, PublishedVals.metric]

/-- Claim C4, counterexample: the spec's end-to-end scenario fails on the
MQTT monitor.  User "Alice" has `hr_device_ids = [100, 101]`; device 101
delivers an HR buffer with `buf[7] = 0` (device 100 silent).  The stored
reading for device 101 carries bpm 0, and `_assign_shared_sensors` —
whose HR scan tests `dv.get("hr") is not None`, which bpm 0 passes — copies
it into Alice's aggregate: her aggregate HR becomes 0 instead of remaining
unset. -/
theorem C4_zero_bpm_counterexample :
    ((mqttBroadcastStep [aliceConfig] 120 101 (21 / 10) zeroBpmBuf 1
        emptyMonitorState).device_values 101).bind DeviceRecord.hr = some 0
    ∧ aggHr (assignSharedSensors 2 [aliceConfig] none
        (mqttBroadcastStep [aliceConfig] 120 101 (21 / 10) zeroBpmBuf 1
          emptyMonitorState)) "Alice" = some 0 := by
  exact ⟨by decide, by decide⟩

/-- Claim C4 (amended): a heart-rate sample whose bpm byte equals 0 IS
treated as a present reading by the MQTT monitor's aggregation
(`dv.get("hr") is not None` holds for 0): the user's aggregate bpm is set
to 0 rather than remaining unset.  A zero bpm still never updates the
last-active-HR user (`dv.get("hr", 0)` is falsy), and the live curses
monitor's aggregation (`if hr_val:`) skips a zero bpm entirely, leaving the
user's aggregate unset there. -/
theorem C4_zero_bpm_amended (u : UserConfig) (st : MonitorState) (now : ℚ)
    (wb : Option WattbikeConfig) (hn : u.name ≠ "")
    (hfv : firstHrValue st.device_values (effHrIds u) = some 0) :
    aggHr (assignSharedSensors now [u] wb st) u.name = some 0
    ∧ (∀ (users : List UserConfig) (device_id : ℕ) (circ nowB : ℚ)
         (data : List ℕ) (stB : MonitorState), data[7]? = some 0 →
        (mqttBroadcastStep users 120 device_id circ data nowB
            stB).last_hr_active_user = stB.last_hr_active_user)
    ∧ (∀ (nowL : ℚ) (stL : MonitorState) (uL : UserConfig) (dL : ℕ)
         (dvL : DeviceRecord), uL.hr_device_id = some dL → dL ≠ 0 →
        stL.device_values dL = some dvL → dvL.hr = some 0 →
        liveCursesHrStep nowL stL uL = stL) := by
  refine ⟨?_, ?_, ?_⟩
  · unfold assignSharedSensors
    rw [show ([u].foldl (assignUserStep now) st) = assignUserStep now st u
          from rfl,
        assignSharedPart_hr]
    unfold assignUserStep
    rw [if_neg hn, hfv]
    simp [aggHr, setUser, keepIfNone]
  · intro users device_id circ nowB data stB h7
    have hdv : (mqttOnBroadcast 120 circ data nowB
        (stB.device_values device_id)).hr = some 0 := by
      simp [mqttOnBroadcast, mqttParse, mqttParseHR, dvUpdate, updField, h7]
    simp [mqttBroadcastStep, hrGet0Truthy, hdv]
  · intro nowL stL uL dL dvL hid hdL hdv hhr
    simp [liveCursesHrStep, hid, hdL, hdv, hhr]

/-- Witness for `C4_zero_bpm_amended` at the scenario of
`C4_zero_bpm_counterexample`. -/
theorem C4_zero_bpm_amended_witness :
    firstHrValue (mqttBroadcastStep [aliceConfig] 120 101 (21 / 10) zeroBpmBuf
        1 emptyMonitorState).device_values (effHrIds aliceConfig) = some 0
    ∧ aggHr (assignSharedSensors 2 [aliceConfig] none
        (mqttBroadcastStep [aliceConfig] 120 101 (21 / 10) zeroBpmBuf 1
          emptyMonitorState)) "Alice" = some 0 :=
  ⟨by decide,
   (C4_zero_bpm_amended aliceConfig
     (mqttBroadcastStep [aliceConfig] 120 101 (21 / 10) zeroBpmBuf 1
       emptyMonitorState) 2 none (by decide) (by decide)).1⟩

/-- Claim C5: with two users A and B (neither owning bike sensors of their
own) and a shared wattbike whose speed/cadence/power sensors have present
readings `v`/`vc`/`vp`: (1) while no user has produced an HR sample
(`last_hr_active_user` is `None`), a tick's `_assign_shared_sensors`
attributes the shared values to no user at all; (2) while A is the
last-active HR user, the shared values are copied into A's aggregate and no
one else's aggregates change; (3) after B's HR device delivers a
nonzero-bpm sample, the last-active HR user becomes B and the next tick
copies the shared values into B's aggregate. -/
theorem C5_shared_device_attribution (uA uB : UserConfig)
    (wb : WattbikeConfig) (st : MonitorState) (circ now : ℚ)
    (hA : uA.name ≠ "") (hB : uB.name ≠ "")
    (hAsp : uA.speed_device_id = none) (hAcad : uA.cadence_device_id = none)
    (hApow : uA.power_device_id = none)
    (hBsp : uB.speed_device_id = none) (hBcad : uB.cadence_device_id = none)
    (hBpow : uB.power_device_id = none)
    (d dc dp : ℕ) (dv dvc dvp : DeviceRecord) (v vc vp : ℚ)
    (hwsp : wb.speed_device_id = some d) (hd : d ≠ 0)
    (hdv : st.device_values d = some dv) (hv : dv.speed = some v)
    (hwc : wb.cadence_device_id = some dc) (hdc : dc ≠ 0)
    (hdvc : st.device_values dc = some dvc) (hvc : dvc.cadence = some vc)
    (hwp : wb.power_device_id = some dp) (hdp : dp ≠ 0)
    (hdvp : st.device_values dp = some dvp) (hvp : dvp.power = some vp) :
    (st.last_hr_active_user = none →
      ∀ name,
        aggSpeed (assignSharedSensors now [uA, uB] (some wb) st) name
            = aggSpeed st name
        ∧ aggCadence (assignSharedSensors now [uA, uB] (some wb) st) name
            = aggCadence st name
        ∧ aggPower (assignSharedSensors now [uA, uB] (some wb) st) name
            = aggPower st name)
    ∧ (st.last_hr_active_user = some uA.name →
        aggSpeed (assignSharedSensors now [uA, uB] (some wb) st) uA.name
            = some v
        ∧ aggCadence (assignSharedSensors now [uA, uB] (some wb) st) uA.name
            = some vc
        ∧ aggPower (assignSharedSensors now [uA, uB] (some wb) st) uA.name
            = some vp
        ∧ ∀ name, name ≠ uA.name →
            aggSpeed (assignSharedSensors now [uA, uB] (some wb) st) name
                = aggSpeed st name
            ∧ aggCadence (assignSharedSensors now [uA, uB] (some wb) st) name
                = aggCadence st name
            ∧ aggPower (assignSharedSensors now [uA, uB] (some wb) st) name
                = aggPower st name)
    ∧ (∀ (idB bpm : ℕ) (dataB : List ℕ) (nowB now2 : ℚ),
        dataB[7]? = some bpm → bpm ≠ 0 →
        idB ≠ d → idB ≠ dc → idB ≠ dp →
        userForHr [uA, uB] idB = some uB.name →
        (mqttBroadcastStep [uA, uB] 120 idB circ dataB nowB
            st).last_hr_active_user = some uB.name
        ∧ aggSpeed (assignSharedSensors now2 [uA, uB] (some wb)
            (mqttBroadcastStep [uA, uB] 120 idB circ dataB nowB st)) uB.name
            = some v
        ∧ aggCadence (assignSharedSensors now2 [uA, uB] (some wb)
            (mqttBroadcastStep [uA, uB] 120 idB circ dataB nowB st)) uB.name
            = some vc
        ∧ aggPower (assignSharedSensors now2 [uA, uB] (some wb)
            (mqttBroadcastStep [uA, uB] 120 idB circ dataB nowB st)) uB.name
            = some vp) := by
  have howned : ∀ u ∈ [uA, uB], u.speed_device_id = none
      ∧ u.cadence_device_id = none ∧ u.power_device_id = none := by
    intro u hu
    rcases List.mem_cons.mp hu with h | h
    · subst h; exact ⟨hAsp, hAcad, hApow⟩
    · rcases List.mem_cons.mp h with h2 | h2
      · subst h2; exact ⟨hBsp, hBcad, hBpow⟩
      · simp at h2
  refine ⟨?_, ?_, ?_⟩
  · intro h0 name
    unfold assignSharedSensors
    have hf := foldl_assign_no_owned now [uA, uB] st howned
    rw [assignSharedPart_no_target now [uA, uB] (some wb) _
      (by rw [hf.2.1, h0])]
    exact hf.2.2 name
  · intro hlast
    exact assignSharedSensors_target now [uA, uB] wb st uA.name howned
      (by simp) hlast hA d dc dp dv dvc dvp v vc vp
      hwsp hd hdv hv hwc hdc hdvc hvc hwp hdp hdvp hvp
  · intro idB bpm dataB nowB now2 h7 hbpm hid1 hid2 hid3 huser
    have hdvB : (mqttOnBroadcast 120 circ dataB nowB
        (st.device_values idB)).hr = some (bpm : ℚ) := by
      simp [mqttOnBroadcast, mqttParse, mqttParseHR, dvUpdate, updField, h7]
    have htruthy : hrGet0Truthy (mqttOnBroadcast 120 circ dataB nowB
        (st.device_values idB)) = true := by
      simp only [hrGet0Truthy, hdvB, decide_eq_true_eq]
      exact_mod_cast hbpm
    have hlast2 : (mqttBroadcastStep [uA, uB] 120 idB circ dataB nowB
        st).last_hr_active_user = some uB.name := by
      simp [mqttBroadcastStep, htruthy, huser]
    have hdevs : ∀ j, j ≠ idB →
        (mqttBroadcastStep [uA, uB] 120 idB circ dataB nowB
          st).device_values j = st.device_values j := by
      intro j hj
      simp [mqttBroadcastStep, hj]
    have hres := assignSharedSensors_target now2 [uA, uB] wb
      (mqttBroadcastStep [uA, uB] 120 idB circ dataB nowB st) uB.name howned
      (by simp) hlast2 hB d dc dp dv dvc dvp v vc vp
      hwsp hd (by rw [hdevs d (fun h => hid1 h.symm)]; exact hdv) hv
      hwc hdc (by rw [hdevs dc (fun h => hid2 h.symm)]; exact hdvc) hvc
      hwp hdp (by rw [hdevs dp (fun h => hid3 h.symm)]; exact hdvp) hvp
    exact ⟨hlast2, hres.1, hres.2.1, hres.2.2.1⟩

/-- Witness for `C5_shared_device_attribution`: users "A" (HR device 1) and
"B" (HR device 2), shared wattbike sensors 10/11/12 reading 20 km/h, 90 rpm
and 250 W, with "A" the last-active HR user; then device 2 delivers a bpm of
75 for B. -/
theorem C5_shared_device_attribution_witness :
    aggSpeed (assignSharedSensors 5 [cfgA, cfgB] (some wattbikeCfg) c5State)
        "A" = some 20
    ∧ (mqttBroadcastStep [cfgA, cfgB] 120 2 (21 / 10)
        [0, 0, 0, 0, 0, 0, 0, 75] 6 c5State).last_hr_active_user = some "B"
    ∧ aggSpeed (assignSharedSensors 7 [cfgA, cfgB] (some wattbikeCfg)
        (mqttBroadcastStep [cfgA, cfgB] 120 2 (21 / 10)
          [0, 0, 0, 0, 0, 0, 0, 75] 6 c5State)) "B" = some 20 := by
  have hmain := C5_shared_device_attribution cfgA cfgB wattbikeCfg c5State
    (21 / 10) 5 (by decide) (by decide) rfl rfl rfl rfl rfl rfl
    10 11 12 sharedSpeedRec sharedCadRec sharedPowRec 20 90 250
    rfl (by decide) rfl rfl rfl (by decide) rfl rfl rfl (by decide) rfl rfl
  have hpart3 := hmain.2.2 2 75 [0, 0, 0, 0, 0, 0, 0, 75] 6 7
    (by simp) (by decide) (by decide) (by decide) (by decide) (by decide)
  exact ⟨(hmain.2.1 rfl).1, hpart3.1, hpart3.2.1⟩

/-- Claim C1: for the speed/cadence profiles (device types 121/122/123) with a
stored prior context, the decoder's deltas are
`deltaTicks = (ticks - priorTicks) mod 65536` and
`deltaRevs = (count - priorCount) mod 65536`; a counter that crosses
`65535 → 0` yields the same delta as if no wraparound had occurred
(`T`, `P`, `C`, `D` are the unwrapped tick/rev counter histories, the sensor
transmits them reduced mod `2^16`); in particular `priorTicks = 65530`
together with `ticks = 10` yields `deltaTicks = 16`. -/
theorem C1_bike_delta_wraparound
    (ticks priorTicks count priorCount T P C D : ℕ)
    (hTP : P ≤ T) (hT : T - P < 65536) (hCD : D ≤ C) (hC : C - D < 65536) :
    bikeDeltas ticks priorTicks count priorCount
      = ((((ticks : ℤ) - (priorTicks : ℤ)) % 65536).toNat,
         (((count : ℤ) - (priorCount : ℤ)) % 65536).toNat)
    ∧ bikeDeltas (T % 65536) (P % 65536) (C % 65536) (D % 65536)
      = (T - P, C - D)
    ∧ (bikeDeltas 10 65530 0 0).1 = 16 := by
  refine ⟨rfl, ?_, by decide⟩
  simp only [bikeDeltas, pyAnd16, Prod.mk.injEq]
  constructor <;> omega

/-- Witness for `C1_bike_delta_wraparound`: the unwrapped tick counter runs
`65530 → 65546` (transmitted as `65530 → 10`) and the unwrapped rev counter
`65534 → 65538` (transmitted as `65534 → 2`). -/
theorem C1_bike_delta_wraparound_witness :
    bikeDeltas (65546 % 65536) (65530 % 65536) (65538 % 65536) (65534 % 65536)
      = (65546 - 65530, 65538 - 65534) :=
  (C1_bike_delta_wraparound 10 65530 2 65534 65546 65530 65538 65534
    (by decide) (by decide) (by decide) (by decide)).2.1

theorem deep_merge_save_denied (device_id device_type : ℕ) (tt : Option ℕ)
    (extra : List (String × JVal)) (mans : Option (ℤ → Option String))
    (r now : ℚ) (lst : String → ℚ) (store : String → Option JRecord)
    (hr0 : r ≠ 0)
    (h : ¬(extra ≠ [] ∨ now - lst (record_key device_type device_id) > r)) :
    deep_merge_save device_id device_type tt extra mans (some r) now lst store
      = { wrote := false, last_save_times := lst, store := store } := by
  simp only [deep_merge_save]
  rw [if_pos hr0, if_neg h]

theorem deep_merge_save_allowed (device_id device_type : ℕ) (tt : Option ℕ)
    (extra : List (String × JVal)) (mans : Option (ℤ → Option String))
    (r now : ℚ) (lst : String → ℚ) (store : String → Option JRecord)
    (hr0 : r ≠ 0)
    (h : extra ≠ [] ∨ now - lst (record_key device_type device_id) > r) :
    deep_merge_save device_id device_type tt extra mans (some r) now lst store
      = { wrote := true,
          last_save_times := fun k =>
            if k = record_key device_type device_id then now else lst k,
          store := fun k =>
            if k = record_key device_type device_id
            then some (recUpdate
              ((store (record_key device_type device_id)).getD (fun _ => none))
              (deepMergeBase device_id device_type tt now extra mans))
            else store k } := by
  simp only [deep_merge_save]
  rw [if_pos hr0, if_pos h]

theorem deep_merge_save_store_of_wrote (device_id device_type : ℕ)
    (tt : Option ℕ) (extra : List (String × JVal))
    (mans : Option (ℤ → Option String)) (rl : Option ℚ) (now : ℚ)
    (lst : String → ℚ) (store : String → Option JRecord)
    (hw : (deep_merge_save device_id device_type tt extra mans rl now lst
      store).wrote = true) :
    (deep_merge_save device_id device_type tt extra mans rl now lst
        store).store
      = fun k => if k = record_key device_type device_id
          then some (recUpdate
            ((store (record_key device_type device_id)).getD (fun _ => none))
            (deepMergeBase device_id device_type tt now extra mans))
          else store k := by
  cases rl with
  | none => rfl
  | some r =>
    by_cases hr0 : r ≠ 0
    · by_cases hsw : extra ≠ []
        ∨ now - lst (record_key device_type device_id) > r
      · rw [deep_merge_save_allowed device_id device_type tt extra mans r now
          lst store hr0 hsw]
      · rw [deep_merge_save_denied device_id device_type tt extra mans r now
          lst store hr0 hsw] at hw
        cases hw
    · simp only [deep_merge_save]
      rw [if_neg hr0]

theorem publishedOfVals_metric (vals : UserVals) (m : Metric) :
    PublishedVals.metric
      { hr := vals.hr, speed := vals.speed, cadence := vals.cadence,
        power := vals.power } m = UserVals.metric vals m := by
  cases m <;> rfl

/-- Claim C6: `_publish_user_metrics` calls the sink only for metrics whose
present value differs from the value tracked in
`self.last_published_values[user]` for that exact (user, metric) pair, and
absent (`None`) values are never published; publishing `{hr: 75}` twice in a
row attempts exactly one sink call, and changing only the speed publishes
the speed alone, not the heart rate. -/
theorem C6_publish_debounce :
    (∀ (user : String) (vals : UserVals) (lastPub : String → PublishedVals)
       (m : Metric) (x : ℚ),
        (m, x) ∈ (publishUserMetrics user vals lastPub).1 →
        UserVals.metric vals m = some x
        ∧ PublishedVals.metric (lastPub user) m ≠ some x)
    ∧ (publishUserMetrics "U" vals75 emptyLastPub).1 = [(Metric.hr, 75)]
    ∧ (publishUserMetrics "U" vals75
        (publishUserMetrics "U" vals75 emptyLastPub).2).1 = []
    ∧ (publishUserMetrics "U" valsHrSpeed2
        (publishUserMetrics "U" valsHrSpeed emptyLastPub).2).1
        = [(Metric.speed, 25)] := by
  refine ⟨?_, by decide, by decide, by decide⟩
  intro user vals lastPub m x hmem
  exact publishAttempts_mem vals (lastPub user) m x hmem

/-- Witness for `C6_publish_debounce`: the hr publish of the `{hr: 75}`
scenario satisfies the only-if conditions. -/
theorem C6_publish_debounce_witness :
    UserVals.metric vals75 Metric.hr = some 75
    ∧ PublishedVals.metric (emptyLastPub "U") Metric.hr ≠ some 75 :=
  C6_publish_debounce.1 "U" vals75 emptyLastPub Metric.hr 75 (by decide)

/-- Claim C8, counterexample: with a sink that fails every call, the first
tick attempts the hr publish (which reaches the broker zero times), yet the
next tick with the same unchanged value attempts nothing — the failed value
does NOT count as changed-since-last-successful-publish, because
`_publish_user_metrics` records `last_published_values` regardless of the
sink outcome and `_publish` swallows the failure. -/
theorem C8_failed_publish_counterexample :
    successfulPublishes (fun _ => false)
        (publishUserMetrics "U" vals75 emptyLastPub).1 = []
    ∧ (publishUserMetrics "U" vals75 emptyLastPub).1 = [(Metric.hr, 75)]
    ∧ (publishUserMetrics "U" vals75
        (publishUserMetrics "U" vals75 emptyLastPub).2).1 = [] := by
  exact ⟨by decide, by decide, by decide⟩

/-- Claim C8 (amended): whether or not the underlying sink call succeeds,
`_publish_user_metrics` records the published-candidate values as
last-published, so an unchanged value is NOT retried on the next tick; a
metric is attempted again only when its value has changed since the previous
call. -/
theorem C8_failed_publish_amended (user : String) (vals : UserVals)
    (lastPub : String → PublishedVals) :
    (publishUserMetrics user vals lastPub).2 user
      = { hr := vals.hr, speed := vals.speed, cadence := vals.cadence,
          power := vals.power }
    ∧ (publishUserMetrics user vals
        (publishUserMetrics user vals lastPub).2).1 = []
    ∧ (∀ (vals2 : UserVals) (m : Metric) (x : ℚ),
        (m, x) ∈ (publishUserMetrics user vals2
          (publishUserMetrics user vals lastPub).2).1 →
        UserVals.metric vals2 m = some x
        ∧ UserVals.metric vals m ≠ some x) := by
  refine ⟨publishUserMetrics_last_self user vals lastPub, ?_, ?_⟩
  · show publishAttempts vals ((publishUserMetrics user vals lastPub).2 user)
      = []
    rw [publishUserMetrics_last_self]
    exact publishAttempts_self vals
  · intro vals2 m x hmem
    have h := publishAttempts_mem vals2
      ((publishUserMetrics user vals lastPub).2 user) m x hmem
    refine ⟨h.1, ?_⟩
    have h2 := h.2
    rw [publishUserMetrics_last_self, publishedOfVals_metric] at h2
    exact h2

/-- Witness for `C8_failed_publish_amended` at the `{hr: 75}` scenario. -/
theorem C8_failed_publish_amended_witness :
    (publishUserMetrics "U" vals75 emptyLastPub).2 "U"
      = { hr := some 75, speed := none, cadence := none, power := none }
    ∧ (publishUserMetrics "U" vals75
        (publishUserMetrics "U" vals75 emptyLastPub).2).1 = [] :=
  ⟨(C8_failed_publish_amended "U" vals75 emptyLastPub).1,
   (C8_failed_publish_amended "U" vals75 emptyLastPub).2.1⟩

/-- Claim C7, counterexample: at *exactly* `rateLimitSeconds` elapsed since
the last allowed write (30 seconds here, `last = 1000`, `now = 1030`) the
claim's rule "at least rateLimitSeconds elapsed" allows the write, but the
code's strict comparison `(now - last) > rate_limit_secs` denies it: no
write happens. -/
theorem C7_rate_limit_counterexample :
    claimWriteAllowed [] 30 1030 1000
    ∧ (deep_merge_save 100 120 (some 1) [] none (some 30) 1030
        (fun _ => 1000) (fun _ => none)).wrote = false := by
  constructor
  · exact Or.inr (by norm_num)
  · have hden : ¬(([] : List (String × JVal)) ≠ []
        ∨ (1030 : ℚ) - (fun _ : String => (1000 : ℚ))
            (record_key 120 100) > 30) := by
      push_neg
      exact ⟨rfl, by norm_num⟩
    rw [deep_merge_save_denied 100 120 (some 1) [] none 30 1030
      (fun _ => 1000) (fun _ => none) (by norm_num) hden]

/-- Claim C7 (amended): with rate limiting active, a write under key
`"{profileType}_{deviceId}"` is allowed exactly when the caller supplies
extra metadata fields or STRICTLY MORE than `rateLimitSeconds` elapsed
since the last allowed write for that key (a call at exactly
`rateLimitSeconds` is still rate-limited); two calls within the window with
no extra fields produce exactly one write, and a third call after the
window elapses produces a second write. -/
theorem C7_rate_limit_amended (device_id device_type : ℕ) (tt : Option ℕ)
    (mans : Option (ℤ → Option String)) (r : ℚ) (hr0 : r ≠ 0)
    (extra : List (String × JVal)) (now : ℚ) (lst : String → ℚ)
    (store : String → Option JRecord) :
    ((deep_merge_save device_id device_type tt extra mans (some r) now lst
        store).wrote = true
      ↔ (extra ≠ [] ∨ now - lst (record_key device_type device_id) > r))
    ∧ (∀ (t0 t1 t2 : ℚ) (lst0 : String → ℚ)
         (st0 : String → Option JRecord),
        t0 - lst0 (record_key device_type device_id) > r →
        t1 - t0 ≤ r → t2 - t0 > r →
        (deep_merge_save device_id device_type tt [] mans (some r) t0 lst0
            st0).wrote = true
        ∧ (deep_merge_save device_id device_type tt [] mans (some r) t1
            (deep_merge_save device_id device_type tt [] mans (some r) t0
              lst0 st0).last_save_times
            (deep_merge_save device_id device_type tt [] mans (some r) t0
              lst0 st0).store).wrote = false
        ∧ (deep_merge_save device_id device_type tt [] mans (some r) t1
            (deep_merge_save device_id device_type tt [] mans (some r) t0
              lst0 st0).last_save_times
            (deep_merge_save device_id device_type tt [] mans (some r) t0
              lst0 st0).store).store
            = (deep_merge_save device_id device_type tt [] mans (some r) t0
                lst0 st0).store
        ∧ (deep_merge_save device_id device_type tt [] mans (some r) t2
            (deep_merge_save device_id device_type tt [] mans (some r) t0
              lst0 st0).last_save_times
            (deep_merge_save device_id device_type tt [] mans (some r) t0
              lst0 st0).store).wrote = true) := by
  constructor
  · by_cases hsw : extra ≠ []
      ∨ now - lst (record_key device_type device_id) > r
    · rw [deep_merge_save_allowed device_id device_type tt extra mans r now
        lst store hr0 hsw]
      simp [hsw]
    · rw [deep_merge_save_denied device_id device_type tt extra mans r now
        lst store hr0 hsw]
      simp [hsw]
  · intro t0 t1 t2 lst0 st0 h0 h1 h2
    have e0 := deep_merge_save_allowed device_id device_type tt [] mans r t0
      lst0 st0 hr0 (Or.inr h0)
    have hlst0 : (deep_merge_save device_id device_type tt [] mans (some r)
        t0 lst0 st0).last_save_times (record_key device_type device_id)
        = t0 := by
      rw [e0]
      simp
    have hden1 : ¬(([] : List (String × JVal)) ≠ []
        ∨ t1 - (deep_merge_save device_id device_type tt [] mans (some r) t0
            lst0 st0).last_save_times (record_key device_type device_id)
          > r) := by
      rw [hlst0]
      push_neg
      exact ⟨rfl, by linarith⟩
    have e1 := deep_merge_save_denied device_id device_type tt [] mans r t1
      (deep_merge_save device_id device_type tt [] mans (some r) t0 lst0
        st0).last_save_times
      (deep_merge_save device_id device_type tt [] mans (some r) t0 lst0
        st0).store hr0 hden1
    have e2 := deep_merge_save_allowed device_id device_type tt [] mans r t2
      (deep_merge_save device_id device_type tt [] mans (some r) t0 lst0
        st0).last_save_times
      (deep_merge_save device_id device_type tt [] mans (some r) t0 lst0
        st0).store hr0 (Or.inr (by rw [hlst0]; linarith))
    refine ⟨by rw [e0], by rw [e1], by rw [e1], by rw [e2]⟩

/-- Witness for `C7_rate_limit_amended`: rate limit 30 s, prior write
bookkeeping at 0; calls at t = 100, 120 (within the window) and 140 (after
it). -/
theorem C7_rate_limit_amended_witness :
    (deep_merge_save 100 120 (some 1) [] none (some 30) 100 (fun _ => 0)
        (fun _ => none)).wrote = true
    ∧ (deep_merge_save 100 120 (some 1) [] none (some 30) 120
        (deep_merge_save 100 120 (some 1) [] none (some 30) 100 (fun _ => 0)
          (fun _ => none)).last_save_times
        (deep_merge_save 100 120 (some 1) [] none (some 30) 100 (fun _ => 0)
          (fun _ => none)).store).wrote = false
    ∧ (deep_merge_save 100 120 (some 1) [] none (some 30) 140
        (deep_merge_save 100 120 (some 1) [] none (some 30) 100 (fun _ => 0)
          (fun _ => none)).last_save_times
        (deep_merge_save 100 120 (some 1) [] none (some 30) 100 (fun _ => 0)
          (fun _ => none)).store).wrote = true := by
  have h := (C7_rate_limit_amended 100 120 (some 1) none 30 (by norm_num) []
    100 (fun _ => 0) (fun _ => none)).2 100 120 140 (fun _ => 0)
    (fun _ => none) (by norm_num) (by norm_num) (by norm_num)
  exact ⟨h.1, h.2.1, h.2.2.2⟩

/-- Claim C9: an allowed persistence write under key
`"{profileTypeCode}_{deviceId}"` merges into the existing record rather than
replacing it: every record under any other key is unchanged, every field of
the existing record that the new write does not supply is preserved, and
every field the write does supply takes the new value. -/
theorem C9_merge_preserves (device_id device_type : ℕ) (tt : Option ℕ)
    (extra : List (String × JVal)) (mans : Option (ℤ → Option String))
    (rl : Option ℚ) (now : ℚ) (lst : String → ℚ)
    (store : String → Option JRecord)
    (hw : (deep_merge_save device_id device_type tt extra mans rl now lst
      store).wrote = true) :
    (∀ k, k ≠ record_key device_type device_id →
      (deep_merge_save device_id device_type tt extra mans rl now lst
        store).store k = store k)
    ∧ (∀ f, deepMergeBase device_id device_type tt now extra mans f = none →
        ((deep_merge_save device_id device_type tt extra mans rl now lst
            store).store (record_key device_type device_id)).getD
          (fun _ => none) f
        = ((store (record_key device_type device_id)).getD
            (fun _ => none)) f)
    ∧ (∀ f v,
        deepMergeBase device_id device_type tt now extra mans f = some v →
        ((deep_merge_save device_id device_type tt extra mans rl now lst
            store).store (record_key device_type device_id)).getD
          (fun _ => none) f = some v) := by
  have hstore := deep_merge_save_store_of_wrote device_id device_type tt
    extra mans rl now lst store hw
  refine ⟨fun k hk => ?_, fun f hf => ?_, fun f v hf => ?_⟩
  · rw [hstore]
    simp [hk]
  · rw [hstore]
    simp [recUpdate, keepIfNone, hf]
  · rw [hstore]
    simp [recUpdate, keepIfNone, hf]

/-- Witness for `C9_merge_preserves`: an unconditional write (no rate limit
argument) for device 5 / type 120 over `c9Store`: the record under key
`"119_9"` is untouched and `oldRecord`'s `extra_field` survives under
`"120_5"`. -/
theorem C9_merge_preserves_witness :
    (deep_merge_save 5 120 none [] none none 1 (fun _ => 0) c9Store).store
        "119_9" = c9Store "119_9"
    ∧ ((deep_merge_save 5 120 none [] none none 1 (fun _ => 0)
        c9Store).store "120_5").getD (fun _ => none) "extra_field"
        = ((c9Store "120_5").getD (fun _ => none)) "extra_field" :=
  ⟨(C9_merge_preserves 5 120 none [] none none 1 (fun _ => 0) c9Store
      rfl).1 "119_9" (by decide),
   (C9_merge_preserves 5 120 none [] none none 1 (fun _ => 0) c9Store
      rfl).2.1 "extra_field" (by decide)⟩

theorem availEvents_metric_map (name : String) (l : List (Metric × ℚ)) :
    availEvents (l.map fun a => PubEvent.metric name a.1 a.2) = [] := by
  induction l with
  | nil => rfl
  | cons a rest ih => simpa [availEvents, List.filter] using ih

theorem availEvents_append (l1 l2 : List PubEvent) :
    availEvents (l1 ++ l2) = availEvents l1 ++ availEvents l2 :=
  List.filter_append l1 l2

theorem runTick_stale_user (sinkOk : Metric → Bool) (now stale_secs : ℚ)
    (u : String) (vals : UserVals) (ts : TickState)
    (hupd : vals.updated ≠ 0) (hstale : now - vals.updated > stale_secs)
    (hav : ts.last_availability u = some false) :
    availEvents (runTick sinkOk true now stale_secs [(u, vals)] ts).2
      = [PubEvent.avail u true, PubEvent.avail u false]
    ∧ (runTick sinkOk true now stale_secs [(u, vals)]
        ts).1.last_availability u = some false := by
  refine ⟨?_, ?_⟩
  · have hev : (runTick sinkOk true now stale_secs [(u, vals)] ts).2
        = ((successfulPublishes sinkOk
              (publishUserMetrics u vals ts.last_published).1).map
            (fun a => PubEvent.metric u a.1 a.2)
          ++ [PubEvent.avail u true]) ++ [PubEvent.avail u false] := by
      simp [runTick, runTickUser, availabilityCall, hupd, hstale, hav]
    rw [hev, availEvents_append, availEvents_append, availEvents_metric_map]
    rfl
  · simp [runTick, runTickUser, availabilityCall, hupd, hstale, hav]

/-- Claim C10: in every iteration of the MQTT publish loop, a user whose
aggregate carries a nonzero `updated` timestamp is marked online before the
staleness check runs, so a user whose aggregate was updated at least once
but has been stale for longer than `stale_secs` receives an online
availability publish immediately followed by an offline availability
publish within the same tick, on every tick, rather than staying offline. -/
theorem C10_stale_flaps_online_offline (u : String) (vals : UserVals)
    (sinkOk : Metric → Bool) (stale_secs : ℚ) (tms : ℕ → ℚ) (ts : TickState)
    (hupd : vals.updated ≠ 0)
    (hstale : ∀ k, tms k - vals.updated > stale_secs)
    (hav : ts.last_availability u = some false) :
    ∀ k,
      availEvents
        (runTickEvents sinkOk true stale_secs tms [(u, vals)] ts k)
        = [PubEvent.avail u true, PubEvent.avail u false]
      ∧ (runTicksState sinkOk true stale_secs tms [(u, vals)] ts
          (k + 1)).last_availability u = some false := by
  have hinv : ∀ k, (runTicksState sinkOk true stale_secs tms [(u, vals)] ts
      k).last_availability u = some false := by
    intro k
    induction k with
    | zero => exact hav
    | succ n ih =>
      exact (runTick_stale_user sinkOk (tms n) stale_secs u vals _ hupd
        (hstale n) ih).2
  intro k
  exact ⟨(runTick_stale_user sinkOk (tms k) stale_secs u vals _ hupd
    (hstale k) (hinv k)).1, hinv (k + 1)⟩

/-- Witness for `C10_stale_flaps_online_offline`: user "U" with `updated =
1`, every tick at time 50, staleness threshold 10 s, starting from an
offline availability state — the second tick (and, by the theorem, every
tick) emits online followed by offline. -/
theorem C10_stale_flaps_online_offline_witness :
    availEvents (runTickEvents (fun _ => true) true 10 (fun _ => 50)
        [("U", vals75)] staleTickState 1)
      = [PubEvent.avail "U" true, PubEvent.avail "U" false] :=
  (C10_stale_flaps_online_offline "U" vals75 (fun _ => true) 10
    (fun _ => 50) staleTickState (by decide) (fun _ => by norm_num [vals75])
    (by decide) 1).1

end PyAnt
